import Mathlib

/-!
Shallow embedding of `multilang.py` (a dictionary-substitution text codec).

Python strings are modelled as lists of Unicode code points (`List Nat`),
byte strings as lists of byte values (`List Nat`, each `< 256`).  Fallible
operations (Python exceptions such as `OverflowError` from `int.to_bytes`,
`ValueError` from `Language(...)` and `numpy.frombuffer`, and strict UTF-8
decoding errors) are modelled with `Option`.
-/

set_option maxRecDepth 4000

namespace Multilang

/-- Code points of a Lean string literal: convenience for writing the Python
`str` values of concrete test inputs as `List Nat`. -/
def pyStr (s : String) : List Nat := s.data.map Char.toNat

/-- The `Language(IntEnum)` members (multilang.py lines 11-30). -/
inductive Language where
  | DE | EN | ES | FR | IT | JA | PT | RU | ZH | AR | FA | KO | NL | PO | TH | VI
  | SEP | UNSPECIFIED
deriving DecidableEq

/-- Integer value of each `Language` member (lines 13-30). -/
def Language.toNat : Language → Nat
  | .DE => 1
  | .EN => 2
  | .ES => 3
  | .FR => 4
  | .IT => 5
  | .JA => 6
  | .PT => 7
  | .RU => 8
  | .ZH => 9
  | .AR => 10
  | .FA => 11
  | .KO => 12
  | .NL => 13
  | .PO => 14
  | .TH => 15
  | .VI => 16
  | .SEP => 0
  | .UNSPECIFIED => 65535

/-- The constructor call `Language(b)` on a frame byte (line 162): it succeeds
exactly on the defined values 0-16 and raises `ValueError` (here `none`) on
every other byte. -/
def langOfByte : Nat → Option Language
  | 0 => some .SEP
  | 1 => some .DE
  | 2 => some .EN
  | 3 => some .ES
  | 4 => some .FR
  | 5 => some .IT
  | 6 => some .JA
  | 7 => some .PT
  | 8 => some .RU
  | 9 => some .ZH
  | 10 => some .AR
  | 11 => some .FA
  | 12 => some .KO
  | 13 => some .NL
  | 14 => some .PO
  | 15 => some .TH
  | 16 => some .VI
  | _ => none

/-! ## Tokenizer (lines 94-101)

The regex is `[\w']+|[一-鿿]|[぀-ゟ]|[゠-ヿ]|[가-힯]`
with `re.findall`, followed by `token.lower()` on every token.

`\w` (Unicode word characters) and `str.lower` (full Unicode lowercasing,
including the context-sensitive final-sigma rule) are modelled by exact tables
generated from the CPython runtime this program is written for: `wordRanges`
is the set of code points matched by the pattern `\w`, `lowerMap` the
non-identity code-point images of `str.lower` above the ASCII range, and
`casedRanges`/`caseIgnorableRanges` the Cased and Case_Ignorable classes that
drive the final-sigma condition of `str.lower`.

Note that `\w` matches CJK ideographs, Kana and Hangul letters; consequently
the first alternative `[\w']+` captures whole runs of those scripts and the
dedicated single-character alternatives only ever see the few non-word code
points of their blocks (unassigned positions, combining marks, punctuation). -/

/-- Membership of a code point in a list of inclusive ranges. -/
def inRanges (rs : List (Nat × Nat)) (c : Nat) : Bool :=
  rs.any (fun p => p.1 ≤ c && c ≤ p.2)

set_option maxHeartbeats 1000000 in
/-- The code points matched by Python's regex class `\w` (Unicode word
characters), as maximal inclusive ranges. -/
def wordRanges : List (Nat × Nat) := [
  (48, 57), (65, 90), (95, 95), (97, 122), (170, 170), (178, 179), (181, 181), (185, 186),
  (188, 190), (192, 214), (216, 246), (248, 705), (710, 721), (736, 740), (748, 748), (750, 750),
  (880, 884), (886, 887), (890, 893), (895, 895), (902, 902), (904, 906), (908, 908), (910, 929),
  (931, 1013), (1015, 1153), (1162, 1327), (1329, 1366), (1369, 1369), (1376, 1416), (1488, 1514), (1519, 1522),
  (1568, 1610), (1632, 1641), (1646, 1647), (1649, 1747), (1749, 1749), (1765, 1766), (1774, 1788), (1791, 1791),
  (1808, 1808), (1810, 1839), (1869, 1957), (1969, 1969), (1984, 2026), (2036, 2037), (2042, 2042), (2048, 2069),
  (2074, 2074), (2084, 2084), (2088, 2088), (2112, 2136), (2144, 2154), (2160, 2183), (2185, 2190), (2208, 2249),
  (2308, 2361), (2365, 2365), (2384, 2384), (2392, 2401), (2406, 2415), (2417, 2432), (2437, 2444), (2447, 2448),
  (2451, 2472), (2474, 2480), (2482, 2482), (2486, 2489), (2493, 2493), (2510, 2510), (2524, 2525), (2527, 2529),
  (2534, 2545), (2548, 2553), (2556, 2556), (2565, 2570), (2575, 2576), (2579, 2600), (2602, 2608), (2610, 2611),
  (2613, 2614), (2616, 2617), (2649, 2652), (2654, 2654), (2662, 2671), (2674, 2676), (2693, 2701), (2703, 2705),
  (2707, 2728), (2730, 2736), (2738, 2739), (2741, 2745), (2749, 2749), (2768, 2768), (2784, 2785), (2790, 2799),
  (2809, 2809), (2821, 2828), (2831, 2832), (2835, 2856), (2858, 2864), (2866, 2867), (2869, 2873), (2877, 2877),
  (2908, 2909), (2911, 2913), (2918, 2927), (2929, 2935), (2947, 2947), (2949, 2954), (2958, 2960), (2962, 2965),
  (2969, 2970), (2972, 2972), (2974, 2975), (2979, 2980), (2984, 2986), (2990, 3001), (3024, 3024), (3046, 3058),
  (3077, 3084), (3086, 3088), (3090, 3112), (3114, 3129), (3133, 3133), (3160, 3162), (3165, 3165), (3168, 3169),
  (3174, 3183), (3192, 3198), (3200, 3200), (3205, 3212), (3214, 3216), (3218, 3240), (3242, 3251), (3253, 3257),
  (3261, 3261), (3293, 3294), (3296, 3297), (3302, 3311), (3313, 3314), (3332, 3340), (3342, 3344), (3346, 3386),
  (3389, 3389), (3406, 3406), (3412, 3414), (3416, 3425), (3430, 3448), (3450, 3455), (3461, 3478), (3482, 3505),
  (3507, 3515), (3517, 3517), (3520, 3526), (3558, 3567), (3585, 3632), (3634, 3635), (3648, 3654), (3664, 3673),
  (3713, 3714), (3716, 3716), (3718, 3722), (3724, 3747), (3749, 3749), (3751, 3760), (3762, 3763), (3773, 3773),
  (3776, 3780), (3782, 3782), (3792, 3801), (3804, 3807), (3840, 3840), (3872, 3891), (3904, 3911), (3913, 3948),
  (3976, 3980), (4096, 4138), (4159, 4169), (4176, 4181), (4186, 4189), (4193, 4193), (4197, 4198), (4206, 4208),
  (4213, 4225), (4238, 4238), (4240, 4249), (4256, 4293), (4295, 4295), (4301, 4301), (4304, 4346), (4348, 4680),
  (4682, 4685), (4688, 4694), (4696, 4696), (4698, 4701), (4704, 4744), (4746, 4749), (4752, 4784), (4786, 4789),
  (4792, 4798), (4800, 4800), (4802, 4805), (4808, 4822), (4824, 4880), (4882, 4885), (4888, 4954), (4969, 4988),
  (4992, 5007), (5024, 5109), (5112, 5117), (5121, 5740), (5743, 5759), (5761, 5786), (5792, 5866), (5870, 5880),
  (5888, 5905), (5919, 5937), (5952, 5969), (5984, 5996), (5998, 6000), (6016, 6067), (6103, 6103), (6108, 6108),
  (6112, 6121), (6128, 6137), (6160, 6169), (6176, 6264), (6272, 6276), (6279, 6312), (6314, 6314), (6320, 6389),
  (6400, 6430), (6470, 6509), (6512, 6516), (6528, 6571), (6576, 6601), (6608, 6618), (6656, 6678), (6688, 6740),
  (6784, 6793), (6800, 6809), (6823, 6823), (6917, 6963), (6981, 6988), (6992, 7001), (7043, 7072), (7086, 7141),
  (7168, 7203), (7232, 7241), (7245, 7293), (7296, 7304), (7312, 7354), (7357, 7359), (7401, 7404), (7406, 7411),
  (7413, 7414), (7418, 7418), (7424, 7615), (7680, 7957), (7960, 7965), (7968, 8005), (8008, 8013), (8016, 8023),
  (8025, 8025), (8027, 8027), (8029, 8029), (8031, 8061), (8064, 8116), (8118, 8124), (8126, 8126), (8130, 8132),
  (8134, 8140), (8144, 8147), (8150, 8155), (8160, 8172), (8178, 8180), (8182, 8188), (8304, 8305), (8308, 8313),
  (8319, 8329), (8336, 8348), (8450, 8450), (8455, 8455), (8458, 8467), (8469, 8469), (8473, 8477), (8484, 8484),
  (8486, 8486), (8488, 8488), (8490, 8493), (8495, 8505), (8508, 8511), (8517, 8521), (8526, 8526), (8528, 8585),
  (9312, 9371), (9450, 9471), (10102, 10131), (11264, 11492), (11499, 11502), (11506, 11507), (11517, 11517), (11520, 11557),
  (11559, 11559), (11565, 11565), (11568, 11623), (11631, 11631), (11648, 11670), (11680, 11686), (11688, 11694), (11696, 11702),
  (11704, 11710), (11712, 11718), (11720, 11726), (11728, 11734), (11736, 11742), (11823, 11823), (12293, 12295), (12321, 12329),
  (12337, 12341), (12344, 12348), (12353, 12438), (12445, 12447), (12449, 12538), (12540, 12543), (12549, 12591), (12593, 12686),
  (12690, 12693), (12704, 12735), (12784, 12799), (12832, 12841), (12872, 12879), (12881, 12895), (12928, 12937), (12977, 12991),
  (13312, 19903), (19968, 42124), (42192, 42237), (42240, 42508), (42512, 42539), (42560, 42606), (42623, 42653), (42656, 42735),
  (42775, 42783), (42786, 42888), (42891, 42954), (42960, 42961), (42963, 42963), (42965, 42969), (42994, 43009), (43011, 43013),
  (43015, 43018), (43020, 43042), (43056, 43061), (43072, 43123), (43138, 43187), (43216, 43225), (43250, 43255), (43259, 43259),
  (43261, 43262), (43264, 43301), (43312, 43334), (43360, 43388), (43396, 43442), (43471, 43481), (43488, 43492), (43494, 43518),
  (43520, 43560), (43584, 43586), (43588, 43595), (43600, 43609), (43616, 43638), (43642, 43642), (43646, 43695), (43697, 43697),
  (43701, 43702), (43705, 43709), (43712, 43712), (43714, 43714), (43739, 43741), (43744, 43754), (43762, 43764), (43777, 43782),
  (43785, 43790), (43793, 43798), (43808, 43814), (43816, 43822), (43824, 43866), (43868, 43881), (43888, 44002), (44016, 44025),
  (44032, 55203), (55216, 55238), (55243, 55291), (63744, 64109), (64112, 64217), (64256, 64262), (64275, 64279), (64285, 64285),
  (64287, 64296), (64298, 64310), (64312, 64316), (64318, 64318), (64320, 64321), (64323, 64324), (64326, 64433), (64467, 64829),
  (64848, 64911), (64914, 64967), (65008, 65019), (65136, 65140), (65142, 65276), (65296, 65305), (65313, 65338), (65345, 65370),
  (65382, 65470), (65474, 65479), (65482, 65487), (65490, 65495), (65498, 65500), (65536, 65547), (65549, 65574), (65576, 65594),
  (65596, 65597), (65599, 65613), (65616, 65629), (65664, 65786), (65799, 65843), (65856, 65912), (65930, 65931), (66176, 66204),
  (66208, 66256), (66273, 66299), (66304, 66339), (66349, 66378), (66384, 66421), (66432, 66461), (66464, 66499), (66504, 66511),
  (66513, 66517), (66560, 66717), (66720, 66729), (66736, 66771), (66776, 66811), (66816, 66855), (66864, 66915), (66928, 66938),
  (66940, 66954), (66956, 66962), (66964, 66965), (66967, 66977), (66979, 66993), (66995, 67001), (67003, 67004), (67072, 67382),
  (67392, 67413), (67424, 67431), (67456, 67461), (67463, 67504), (67506, 67514), (67584, 67589), (67592, 67592), (67594, 67637),
  (67639, 67640), (67644, 67644), (67647, 67669), (67672, 67702), (67705, 67742), (67751, 67759), (67808, 67826), (67828, 67829),
  (67835, 67867), (67872, 67897), (67968, 68023), (68028, 68047), (68050, 68096), (68112, 68115), (68117, 68119), (68121, 68149),
  (68160, 68168), (68192, 68222), (68224, 68255), (68288, 68295), (68297, 68324), (68331, 68335), (68352, 68405), (68416, 68437),
  (68440, 68466), (68472, 68497), (68521, 68527), (68608, 68680), (68736, 68786), (68800, 68850), (68858, 68899), (68912, 68921),
  (69216, 69246), (69248, 69289), (69296, 69297), (69376, 69415), (69424, 69445), (69457, 69460), (69488, 69505), (69552, 69579),
  (69600, 69622), (69635, 69687), (69714, 69743), (69745, 69746), (69749, 69749), (69763, 69807), (69840, 69864), (69872, 69881),
  (69891, 69926), (69942, 69951), (69956, 69956), (69959, 69959), (69968, 70002), (70006, 70006), (70019, 70066), (70081, 70084),
  (70096, 70106), (70108, 70108), (70113, 70132), (70144, 70161), (70163, 70187), (70272, 70278), (70280, 70280), (70282, 70285),
  (70287, 70301), (70303, 70312), (70320, 70366), (70384, 70393), (70405, 70412), (70415, 70416), (70419, 70440), (70442, 70448),
  (70450, 70451), (70453, 70457), (70461, 70461), (70480, 70480), (70493, 70497), (70656, 70708), (70727, 70730), (70736, 70745),
  (70751, 70753), (70784, 70831), (70852, 70853), (70855, 70855), (70864, 70873), (71040, 71086), (71128, 71131), (71168, 71215),
  (71236, 71236), (71248, 71257), (71296, 71338), (71352, 71352), (71360, 71369), (71424, 71450), (71472, 71483), (71488, 71494),
  (71680, 71723), (71840, 71922), (71935, 71942), (71945, 71945), (71948, 71955), (71957, 71958), (71960, 71983), (71999, 71999),
  (72001, 72001), (72016, 72025), (72096, 72103), (72106, 72144), (72161, 72161), (72163, 72163), (72192, 72192), (72203, 72242),
  (72250, 72250), (72272, 72272), (72284, 72329), (72349, 72349), (72368, 72440), (72704, 72712), (72714, 72750), (72768, 72768),
  (72784, 72812), (72818, 72847), (72960, 72966), (72968, 72969), (72971, 73008), (73030, 73030), (73040, 73049), (73056, 73061),
  (73063, 73064), (73066, 73097), (73112, 73112), (73120, 73129), (73440, 73458), (73648, 73648), (73664, 73684), (73728, 74649),
  (74752, 74862), (74880, 75075), (77712, 77808), (77824, 78894), (82944, 83526), (92160, 92728), (92736, 92766), (92768, 92777),
  (92784, 92862), (92864, 92873), (92880, 92909), (92928, 92975), (92992, 92995), (93008, 93017), (93019, 93025), (93027, 93047),
  (93053, 93071), (93760, 93846), (93952, 94026), (94032, 94032), (94099, 94111), (94176, 94177), (94179, 94179), (94208, 100343),
  (100352, 101589), (101632, 101640), (110576, 110579), (110581, 110587), (110589, 110590), (110592, 110882), (110928, 110930), (110948, 110951),
  (110960, 111355), (113664, 113770), (113776, 113788), (113792, 113800), (113808, 113817), (119520, 119539), (119648, 119672), (119808, 119892),
  (119894, 119964), (119966, 119967), (119970, 119970), (119973, 119974), (119977, 119980), (119982, 119993), (119995, 119995), (119997, 120003),
  (120005, 120069), (120071, 120074), (120077, 120084), (120086, 120092), (120094, 120121), (120123, 120126), (120128, 120132), (120134, 120134),
  (120138, 120144), (120146, 120485), (120488, 120512), (120514, 120538), (120540, 120570), (120572, 120596), (120598, 120628), (120630, 120654),
  (120656, 120686), (120688, 120712), (120714, 120744), (120746, 120770), (120772, 120779), (120782, 120831), (122624, 122654), (123136, 123180),
  (123191, 123197), (123200, 123209), (123214, 123214), (123536, 123565), (123584, 123627), (123632, 123641), (124896, 124902), (124904, 124907),
  (124909, 124910), (124912, 124926), (124928, 125124), (125127, 125135), (125184, 125251), (125259, 125259), (125264, 125273), (126065, 126123),
  (126125, 126127), (126129, 126132), (126209, 126253), (126255, 126269), (126464, 126467), (126469, 126495), (126497, 126498), (126500, 126500),
  (126503, 126503), (126505, 126514), (126516, 126519), (126521, 126521), (126523, 126523), (126530, 126530), (126535, 126535), (126537, 126537),
  (126539, 126539), (126541, 126543), (126545, 126546), (126548, 126548), (126551, 126551), (126553, 126553), (126555, 126555), (126557, 126557),
  (126559, 126559), (126561, 126562), (126564, 126564), (126567, 126570), (126572, 126578), (126580, 126583), (126585, 126588), (126590, 126590),
  (126592, 126601), (126603, 126619), (126625, 126627), (126629, 126633), (126635, 126651), (127232, 127244), (130032, 130041), (131072, 173791),
  (173824, 177976), (177984, 178205), (178208, 183969), (183984, 191456), (194560, 195101), (196608, 201546)]

set_option maxHeartbeats 1000000 in
/-- The code points of the Unicode Cased class, as consulted by CPython's
`str.lower` when deciding whether a capital sigma is final. -/
def casedRanges : List (Nat × Nat) := [
  (65, 90), (97, 122), (170, 170), (181, 181), (186, 186), (192, 214), (216, 246), (248, 442),
  (444, 447), (452, 659), (661, 687), (880, 883), (886, 887), (891, 893), (895, 895), (902, 902),
  (904, 906), (908, 908), (910, 929), (931, 1013), (1015, 1153), (1162, 1327), (1329, 1366), (1376, 1416),
  (4256, 4293), (4295, 4295), (4301, 4301), (4304, 4346), (4349, 4351), (5024, 5109), (5112, 5117), (7296, 7304),
  (7312, 7354), (7357, 7359), (7424, 7467), (7531, 7543), (7545, 7578), (7680, 7957), (7960, 7965), (7968, 8005),
  (8008, 8013), (8016, 8023), (8025, 8025), (8027, 8027), (8029, 8029), (8031, 8061), (8064, 8116), (8118, 8124),
  (8126, 8126), (8130, 8132), (8134, 8140), (8144, 8147), (8150, 8155), (8160, 8172), (8178, 8180), (8182, 8188),
  (8450, 8450), (8455, 8455), (8458, 8467), (8469, 8469), (8473, 8477), (8484, 8484), (8486, 8486), (8488, 8488),
  (8490, 8493), (8495, 8500), (8505, 8505), (8508, 8511), (8517, 8521), (8526, 8526), (8544, 8575), (8579, 8580),
  (9398, 9449), (11264, 11387), (11390, 11492), (11499, 11502), (11506, 11507), (11520, 11557), (11559, 11559), (11565, 11565),
  (42560, 42605), (42624, 42651), (42786, 42863), (42865, 42887), (42891, 42894), (42896, 42954), (42960, 42961), (42963, 42963),
  (42965, 42969), (42997, 42998), (43002, 43002), (43824, 43866), (43872, 43880), (43888, 43967), (64256, 64262), (64275, 64279),
  (65313, 65338), (65345, 65370), (66560, 66639), (66736, 66771), (66776, 66811), (66928, 66938), (66940, 66954), (66956, 66962),
  (66964, 66965), (66967, 66977), (66979, 66993), (66995, 67001), (67003, 67004), (68736, 68786), (68800, 68850), (71840, 71903),
  (93760, 93823), (119808, 119892), (119894, 119964), (119966, 119967), (119970, 119970), (119973, 119974), (119977, 119980), (119982, 119993),
  (119995, 119995), (119997, 120003), (120005, 120069), (120071, 120074), (120077, 120084), (120086, 120092), (120094, 120121), (120123, 120126),
  (120128, 120132), (120134, 120134), (120138, 120144), (120146, 120485), (120488, 120512), (120514, 120538), (120540, 120570), (120572, 120596),
  (120598, 120628), (120630, 120654), (120656, 120686), (120688, 120712), (120714, 120744), (120746, 120770), (120772, 120779), (122624, 122633),
  (122635, 122654), (125184, 125251), (127280, 127305), (127312, 127337), (127344, 127369)]

set_option maxHeartbeats 1000000 in
/-- The code points of the Unicode Case_Ignorable class, skipped by CPython's
`str.lower` in the final-sigma scan. -/
def caseIgnorableRanges : List (Nat × Nat) := [
  (39, 39), (46, 46), (58, 58), (94, 94), (96, 96), (168, 168), (173, 173), (175, 175),
  (180, 180), (183, 184), (688, 879), (884, 885), (890, 890), (900, 901), (903, 903), (1155, 1161),
  (1369, 1369), (1375, 1375), (1425, 1469), (1471, 1471), (1473, 1474), (1476, 1477), (1479, 1479), (1524, 1524),
  (1536, 1541), (1552, 1562), (1564, 1564), (1600, 1600), (1611, 1631), (1648, 1648), (1750, 1757), (1759, 1768),
  (1770, 1773), (1807, 1807), (1809, 1809), (1840, 1866), (1958, 1968), (2027, 2037), (2042, 2042), (2045, 2045),
  (2070, 2093), (2137, 2139), (2184, 2184), (2192, 2193), (2200, 2207), (2249, 2306), (2362, 2362), (2364, 2364),
  (2369, 2376), (2381, 2381), (2385, 2391), (2402, 2403), (2417, 2417), (2433, 2433), (2492, 2492), (2497, 2500),
  (2509, 2509), (2530, 2531), (2558, 2558), (2561, 2562), (2620, 2620), (2625, 2626), (2631, 2632), (2635, 2637),
  (2641, 2641), (2672, 2673), (2677, 2677), (2689, 2690), (2748, 2748), (2753, 2757), (2759, 2760), (2765, 2765),
  (2786, 2787), (2810, 2815), (2817, 2817), (2876, 2876), (2879, 2879), (2881, 2884), (2893, 2893), (2901, 2902),
  (2914, 2915), (2946, 2946), (3008, 3008), (3021, 3021), (3072, 3072), (3076, 3076), (3132, 3132), (3134, 3136),
  (3142, 3144), (3146, 3149), (3157, 3158), (3170, 3171), (3201, 3201), (3260, 3260), (3263, 3263), (3270, 3270),
  (3276, 3277), (3298, 3299), (3328, 3329), (3387, 3388), (3393, 3396), (3405, 3405), (3426, 3427), (3457, 3457),
  (3530, 3530), (3538, 3540), (3542, 3542), (3633, 3633), (3636, 3642), (3654, 3662), (3761, 3761), (3764, 3772),
  (3782, 3782), (3784, 3789), (3864, 3865), (3893, 3893), (3895, 3895), (3897, 3897), (3953, 3966), (3968, 3972),
  (3974, 3975), (3981, 3991), (3993, 4028), (4038, 4038), (4141, 4144), (4146, 4151), (4153, 4154), (4157, 4158),
  (4184, 4185), (4190, 4192), (4209, 4212), (4226, 4226), (4229, 4230), (4237, 4237), (4253, 4253), (4348, 4348),
  (4957, 4959), (5906, 5908), (5938, 5939), (5970, 5971), (6002, 6003), (6068, 6069), (6071, 6077), (6086, 6086),
  (6089, 6099), (6103, 6103), (6109, 6109), (6155, 6159), (6211, 6211), (6277, 6278), (6313, 6313), (6432, 6434),
  (6439, 6440), (6450, 6450), (6457, 6459), (6679, 6680), (6683, 6683), (6742, 6742), (6744, 6750), (6752, 6752),
  (6754, 6754), (6757, 6764), (6771, 6780), (6783, 6783), (6823, 6823), (6832, 6862), (6912, 6915), (6964, 6964),
  (6966, 6970), (6972, 6972), (6978, 6978), (7019, 7027), (7040, 7041), (7074, 7077), (7080, 7081), (7083, 7085),
  (7142, 7142), (7144, 7145), (7149, 7149), (7151, 7153), (7212, 7219), (7222, 7223), (7288, 7293), (7376, 7378),
  (7380, 7392), (7394, 7400), (7405, 7405), (7412, 7412), (7416, 7417), (7468, 7530), (7544, 7544), (7579, 7679),
  (8125, 8125), (8127, 8129), (8141, 8143), (8157, 8159), (8173, 8175), (8189, 8190), (8203, 8207), (8216, 8217),
  (8228, 8228), (8231, 8231), (8234, 8238), (8288, 8292), (8294, 8303), (8305, 8305), (8319, 8319), (8336, 8348),
  (8400, 8432), (11388, 11389), (11503, 11505), (11631, 11631), (11647, 11647), (11744, 11775), (11823, 11823), (12293, 12293),
  (12330, 12333), (12337, 12341), (12347, 12347), (12441, 12446), (12540, 12542), (40981, 40981), (42232, 42237), (42508, 42508),
  (42607, 42610), (42612, 42621), (42623, 42623), (42652, 42655), (42736, 42737), (42752, 42785), (42864, 42864), (42888, 42890),
  (42994, 42996), (43000, 43001), (43010, 43010), (43014, 43014), (43019, 43019), (43045, 43046), (43052, 43052), (43204, 43205),
  (43232, 43249), (43263, 43263), (43302, 43309), (43335, 43345), (43392, 43394), (43443, 43443), (43446, 43449), (43452, 43453),
  (43471, 43471), (43493, 43494), (43561, 43566), (43569, 43570), (43573, 43574), (43587, 43587), (43596, 43596), (43632, 43632),
  (43644, 43644), (43696, 43696), (43698, 43700), (43703, 43704), (43710, 43711), (43713, 43713), (43741, 43741), (43756, 43757),
  (43763, 43764), (43766, 43766), (43867, 43871), (43881, 43883), (44005, 44005), (44008, 44008), (44013, 44013), (64286, 64286),
  (64434, 64450), (65024, 65039), (65043, 65043), (65056, 65071), (65106, 65106), (65109, 65109), (65279, 65279), (65287, 65287),
  (65294, 65294), (65306, 65306), (65342, 65342), (65344, 65344), (65392, 65392), (65438, 65439), (65507, 65507), (65529, 65531),
  (66045, 66045), (66272, 66272), (66422, 66426), (67456, 67461), (67463, 67504), (67506, 67514), (68097, 68099), (68101, 68102),
  (68108, 68111), (68152, 68154), (68159, 68159), (68325, 68326), (68900, 68903), (69291, 69292), (69446, 69456), (69506, 69509),
  (69633, 69633), (69688, 69702), (69744, 69744), (69747, 69748), (69759, 69761), (69811, 69814), (69817, 69818), (69821, 69821),
  (69826, 69826), (69837, 69837), (69888, 69890), (69927, 69931), (69933, 69940), (70003, 70003), (70016, 70017), (70070, 70078),
  (70089, 70092), (70095, 70095), (70191, 70193), (70196, 70196), (70198, 70199), (70206, 70206), (70367, 70367), (70371, 70378),
  (70400, 70401), (70459, 70460), (70464, 70464), (70502, 70508), (70512, 70516), (70712, 70719), (70722, 70724), (70726, 70726),
  (70750, 70750), (70835, 70840), (70842, 70842), (70847, 70848), (70850, 70851), (71090, 71093), (71100, 71101), (71103, 71104),
  (71132, 71133), (71219, 71226), (71229, 71229), (71231, 71232), (71339, 71339), (71341, 71341), (71344, 71349), (71351, 71351),
  (71453, 71455), (71458, 71461), (71463, 71467), (71727, 71735), (71737, 71738), (71995, 71996), (71998, 71998), (72003, 72003),
  (72148, 72151), (72154, 72155), (72160, 72160), (72193, 72202), (72243, 72248), (72251, 72254), (72263, 72263), (72273, 72278),
  (72281, 72283), (72330, 72342), (72344, 72345), (72752, 72758), (72760, 72765), (72767, 72767), (72850, 72871), (72874, 72880),
  (72882, 72883), (72885, 72886), (73009, 73014), (73018, 73018), (73020, 73021), (73023, 73029), (73031, 73031), (73104, 73105),
  (73109, 73109), (73111, 73111), (73459, 73460), (78896, 78904), (92912, 92916), (92976, 92982), (92992, 92995), (94031, 94031),
  (94095, 94111), (94176, 94177), (94179, 94180), (110576, 110579), (110581, 110587), (110589, 110590), (113821, 113822), (113824, 113827),
  (118528, 118573), (118576, 118598), (119143, 119145), (119155, 119170), (119173, 119179), (119210, 119213), (119362, 119364), (121344, 121398),
  (121403, 121452), (121461, 121461), (121476, 121476), (121499, 121503), (121505, 121519), (122880, 122886), (122888, 122904), (122907, 122913),
  (122915, 122916), (122918, 122922), (123184, 123197), (123566, 123566), (123628, 123631), (125136, 125142), (125252, 125259), (127995, 127999),
  (917505, 917505), (917536, 917631), (917760, 917999)]

set_option maxHeartbeats 1000000 in
/-- The non-identity single-code-point lowercase mappings of Python's
`str.lower` for code points at or above 192.  Three code points are handled
elsewhere: the ASCII letters A-Z are lowered inline in `lowerChar`, U+0130
(whose lowercase image is the two points 0x69 0x307) likewise, and U+03A3
GREEK CAPITAL SIGMA is mapped context-sensitively in `lowerAux`. -/
def lowerMap : List (Nat × Nat) := [
  (192, 224), (193, 225), (194, 226), (195, 227), (196, 228), (197, 229), (198, 230), (199, 231),
  (200, 232), (201, 233), (202, 234), (203, 235), (204, 236), (205, 237), (206, 238), (207, 239),
  (208, 240), (209, 241), (210, 242), (211, 243), (212, 244), (213, 245), (214, 246), (216, 248),
  (217, 249), (218, 250), (219, 251), (220, 252), (221, 253), (222, 254), (256, 257), (258, 259),
  (260, 261), (262, 263), (264, 265), (266, 267), (268, 269), (270, 271), (272, 273), (274, 275),
  (276, 277), (278, 279), (280, 281), (282, 283), (284, 285), (286, 287), (288, 289), (290, 291),
  (292, 293), (294, 295), (296, 297), (298, 299), (300, 301), (302, 303), (306, 307), (308, 309),
  (310, 311), (313, 314), (315, 316), (317, 318), (319, 320), (321, 322), (323, 324), (325, 326),
  (327, 328), (330, 331), (332, 333), (334, 335), (336, 337), (338, 339), (340, 341), (342, 343),
  (344, 345), (346, 347), (348, 349), (350, 351), (352, 353), (354, 355), (356, 357), (358, 359),
  (360, 361), (362, 363), (364, 365), (366, 367), (368, 369), (370, 371), (372, 373), (374, 375),
  (376, 255), (377, 378), (379, 380), (381, 382), (385, 595), (386, 387), (388, 389), (390, 596),
  (391, 392), (393, 598), (394, 599), (395, 396), (398, 477), (399, 601), (400, 603), (401, 402),
  (403, 608), (404, 611), (406, 617), (407, 616), (408, 409), (412, 623), (413, 626), (415, 629),
  (416, 417), (418, 419), (420, 421), (422, 640), (423, 424), (425, 643), (428, 429), (430, 648),
  (431, 432), (433, 650), (434, 651), (435, 436), (437, 438), (439, 658), (440, 441), (444, 445),
  (452, 454), (453, 454), (455, 457), (456, 457), (458, 460), (459, 460), (461, 462), (463, 464),
  (465, 466), (467, 468), (469, 470), (471, 472), (473, 474), (475, 476), (478, 479), (480, 481),
  (482, 483), (484, 485), (486, 487), (488, 489), (490, 491), (492, 493), (494, 495), (497, 499),
  (498, 499), (500, 501), (502, 405), (503, 447), (504, 505), (506, 507), (508, 509), (510, 511),
  (512, 513), (514, 515), (516, 517), (518, 519), (520, 521), (522, 523), (524, 525), (526, 527),
  (528, 529), (530, 531), (532, 533), (534, 535), (536, 537), (538, 539), (540, 541), (542, 543),
  (544, 414), (546, 547), (548, 549), (550, 551), (552, 553), (554, 555), (556, 557), (558, 559),
  (560, 561), (562, 563), (570, 11365), (571, 572), (573, 410), (574, 11366), (577, 578), (579, 384),
  (580, 649), (581, 652), (582, 583), (584, 585), (586, 587), (588, 589), (590, 591), (880, 881),
  (882, 883), (886, 887), (895, 1011), (902, 940), (904, 941), (905, 942), (906, 943), (908, 972),
  (910, 973), (911, 974), (913, 945), (914, 946), (915, 947), (916, 948), (917, 949), (918, 950),
  (919, 951), (920, 952), (921, 953), (922, 954), (923, 955), (924, 956), (925, 957), (926, 958),
  (927, 959), (928, 960), (929, 961), (932, 964), (933, 965), (934, 966), (935, 967), (936, 968),
  (937, 969), (938, 970), (939, 971), (975, 983), (984, 985), (986, 987), (988, 989), (990, 991),
  (992, 993), (994, 995), (996, 997), (998, 999), (1000, 1001), (1002, 1003), (1004, 1005), (1006, 1007),
  (1012, 952), (1015, 1016), (1017, 1010), (1018, 1019), (1021, 891), (1022, 892), (1023, 893), (1024, 1104),
  (1025, 1105), (1026, 1106), (1027, 1107), (1028, 1108), (1029, 1109), (1030, 1110), (1031, 1111), (1032, 1112),
  (1033, 1113), (1034, 1114), (1035, 1115), (1036, 1116), (1037, 1117), (1038, 1118), (1039, 1119), (1040, 1072),
  (1041, 1073), (1042, 1074), (1043, 1075), (1044, 1076), (1045, 1077), (1046, 1078), (1047, 1079), (1048, 1080),
  (1049, 1081), (1050, 1082), (1051, 1083), (1052, 1084), (1053, 1085), (1054, 1086), (1055, 1087), (1056, 1088),
  (1057, 1089), (1058, 1090), (1059, 1091), (1060, 1092), (1061, 1093), (1062, 1094), (1063, 1095), (1064, 1096),
  (1065, 1097), (1066, 1098), (1067, 1099), (1068, 1100), (1069, 1101), (1070, 1102), (1071, 1103), (1120, 1121),
  (1122, 1123), (1124, 1125), (1126, 1127), (1128, 1129), (1130, 1131), (1132, 1133), (1134, 1135), (1136, 1137),
  (1138, 1139), (1140, 1141), (1142, 1143), (1144, 1145), (1146, 1147), (1148, 1149), (1150, 1151), (1152, 1153),
  (1162, 1163), (1164, 1165), (1166, 1167), (1168, 1169), (1170, 1171), (1172, 1173), (1174, 1175), (1176, 1177),
  (1178, 1179), (1180, 1181), (1182, 1183), (1184, 1185), (1186, 1187), (1188, 1189), (1190, 1191), (1192, 1193),
  (1194, 1195), (1196, 1197), (1198, 1199), (1200, 1201), (1202, 1203), (1204, 1205), (1206, 1207), (1208, 1209),
  (1210, 1211), (1212, 1213), (1214, 1215), (1216, 1231), (1217, 1218), (1219, 1220), (1221, 1222), (1223, 1224),
  (1225, 1226), (1227, 1228), (1229, 1230), (1232, 1233), (1234, 1235), (1236, 1237), (1238, 1239), (1240, 1241),
  (1242, 1243), (1244, 1245), (1246, 1247), (1248, 1249), (1250, 1251), (1252, 1253), (1254, 1255), (1256, 1257),
  (1258, 1259), (1260, 1261), (1262, 1263), (1264, 1265), (1266, 1267), (1268, 1269), (1270, 1271), (1272, 1273),
  (1274, 1275), (1276, 1277), (1278, 1279), (1280, 1281), (1282, 1283), (1284, 1285), (1286, 1287), (1288, 1289),
  (1290, 1291), (1292, 1293), (1294, 1295), (1296, 1297), (1298, 1299), (1300, 1301), (1302, 1303), (1304, 1305),
  (1306, 1307), (1308, 1309), (1310, 1311), (1312, 1313), (1314, 1315), (1316, 1317), (1318, 1319), (1320, 1321),
  (1322, 1323), (1324, 1325), (1326, 1327), (1329, 1377), (1330, 1378), (1331, 1379), (1332, 1380), (1333, 1381),
  (1334, 1382), (1335, 1383), (1336, 1384), (1337, 1385), (1338, 1386), (1339, 1387), (1340, 1388), (1341, 1389),
  (1342, 1390), (1343, 1391), (1344, 1392), (1345, 1393), (1346, 1394), (1347, 1395), (1348, 1396), (1349, 1397),
  (1350, 1398), (1351, 1399), (1352, 1400), (1353, 1401), (1354, 1402), (1355, 1403), (1356, 1404), (1357, 1405),
  (1358, 1406), (1359, 1407), (1360, 1408), (1361, 1409), (1362, 1410), (1363, 1411), (1364, 1412), (1365, 1413),
  (1366, 1414), (4256, 11520), (4257, 11521), (4258, 11522), (4259, 11523), (4260, 11524), (4261, 11525), (4262, 11526),
  (4263, 11527), (4264, 11528), (4265, 11529), (4266, 11530), (4267, 11531), (4268, 11532), (4269, 11533), (4270, 11534),
  (4271, 11535), (4272, 11536), (4273, 11537), (4274, 11538), (4275, 11539), (4276, 11540), (4277, 11541), (4278, 11542),
  (4279, 11543), (4280, 11544), (4281, 11545), (4282, 11546), (4283, 11547), (4284, 11548), (4285, 11549), (4286, 11550),
  (4287, 11551), (4288, 11552), (4289, 11553), (4290, 11554), (4291, 11555), (4292, 11556), (4293, 11557), (4295, 11559),
  (4301, 11565), (5024, 43888), (5025, 43889), (5026, 43890), (5027, 43891), (5028, 43892), (5029, 43893), (5030, 43894),
  (5031, 43895), (5032, 43896), (5033, 43897), (5034, 43898), (5035, 43899), (5036, 43900), (5037, 43901), (5038, 43902),
  (5039, 43903), (5040, 43904), (5041, 43905), (5042, 43906), (5043, 43907), (5044, 43908), (5045, 43909), (5046, 43910),
  (5047, 43911), (5048, 43912), (5049, 43913), (5050, 43914), (5051, 43915), (5052, 43916), (5053, 43917), (5054, 43918),
  (5055, 43919), (5056, 43920), (5057, 43921), (5058, 43922), (5059, 43923), (5060, 43924), (5061, 43925), (5062, 43926),
  (5063, 43927), (5064, 43928), (5065, 43929), (5066, 43930), (5067, 43931), (5068, 43932), (5069, 43933), (5070, 43934),
  (5071, 43935), (5072, 43936), (5073, 43937), (5074, 43938), (5075, 43939), (5076, 43940), (5077, 43941), (5078, 43942),
  (5079, 43943), (5080, 43944), (5081, 43945), (5082, 43946), (5083, 43947), (5084, 43948), (5085, 43949), (5086, 43950),
  (5087, 43951), (5088, 43952), (5089, 43953), (5090, 43954), (5091, 43955), (5092, 43956), (5093, 43957), (5094, 43958),
  (5095, 43959), (5096, 43960), (5097, 43961), (5098, 43962), (5099, 43963), (5100, 43964), (5101, 43965), (5102, 43966),
  (5103, 43967), (5104, 5112), (5105, 5113), (5106, 5114), (5107, 5115), (5108, 5116), (5109, 5117), (7312, 4304),
  (7313, 4305), (7314, 4306), (7315, 4307), (7316, 4308), (7317, 4309), (7318, 4310), (7319, 4311), (7320, 4312),
  (7321, 4313), (7322, 4314), (7323, 4315), (7324, 4316), (7325, 4317), (7326, 4318), (7327, 4319), (7328, 4320),
  (7329, 4321), (7330, 4322), (7331, 4323), (7332, 4324), (7333, 4325), (7334, 4326), (7335, 4327), (7336, 4328),
  (7337, 4329), (7338, 4330), (7339, 4331), (7340, 4332), (7341, 4333), (7342, 4334), (7343, 4335), (7344, 4336),
  (7345, 4337), (7346, 4338), (7347, 4339), (7348, 4340), (7349, 4341), (7350, 4342), (7351, 4343), (7352, 4344),
  (7353, 4345), (7354, 4346), (7357, 4349), (7358, 4350), (7359, 4351), (7680, 7681), (7682, 7683), (7684, 7685),
  (7686, 7687), (7688, 7689), (7690, 7691), (7692, 7693), (7694, 7695), (7696, 7697), (7698, 7699), (7700, 7701),
  (7702, 7703), (7704, 7705), (7706, 7707), (7708, 7709), (7710, 7711), (7712, 7713), (7714, 7715), (7716, 7717),
  (7718, 7719), (7720, 7721), (7722, 7723), (7724, 7725), (7726, 7727), (7728, 7729), (7730, 7731), (7732, 7733),
  (7734, 7735), (7736, 7737), (7738, 7739), (7740, 7741), (7742, 7743), (7744, 7745), (7746, 7747), (7748, 7749),
  (7750, 7751), (7752, 7753), (7754, 7755), (7756, 7757), (7758, 7759), (7760, 7761), (7762, 7763), (7764, 7765),
  (7766, 7767), (7768, 7769), (7770, 7771), (7772, 7773), (7774, 7775), (7776, 7777), (7778, 7779), (7780, 7781),
  (7782, 7783), (7784, 7785), (7786, 7787), (7788, 7789), (7790, 7791), (7792, 7793), (7794, 7795), (7796, 7797),
  (7798, 7799), (7800, 7801), (7802, 7803), (7804, 7805), (7806, 7807), (7808, 7809), (7810, 7811), (7812, 7813),
  (7814, 7815), (7816, 7817), (7818, 7819), (7820, 7821), (7822, 7823), (7824, 7825), (7826, 7827), (7828, 7829),
  (7838, 223), (7840, 7841), (7842, 7843), (7844, 7845), (7846, 7847), (7848, 7849), (7850, 7851), (7852, 7853),
  (7854, 7855), (7856, 7857), (7858, 7859), (7860, 7861), (7862, 7863), (7864, 7865), (7866, 7867), (7868, 7869),
  (7870, 7871), (7872, 7873), (7874, 7875), (7876, 7877), (7878, 7879), (7880, 7881), (7882, 7883), (7884, 7885),
  (7886, 7887), (7888, 7889), (7890, 7891), (7892, 7893), (7894, 7895), (7896, 7897), (7898, 7899), (7900, 7901),
  (7902, 7903), (7904, 7905), (7906, 7907), (7908, 7909), (7910, 7911), (7912, 7913), (7914, 7915), (7916, 7917),
  (7918, 7919), (7920, 7921), (7922, 7923), (7924, 7925), (7926, 7927), (7928, 7929), (7930, 7931), (7932, 7933),
  (7934, 7935), (7944, 7936), (7945, 7937), (7946, 7938), (7947, 7939), (7948, 7940), (7949, 7941), (7950, 7942),
  (7951, 7943), (7960, 7952), (7961, 7953), (7962, 7954), (7963, 7955), (7964, 7956), (7965, 7957), (7976, 7968),
  (7977, 7969), (7978, 7970), (7979, 7971), (7980, 7972), (7981, 7973), (7982, 7974), (7983, 7975), (7992, 7984),
  (7993, 7985), (7994, 7986), (7995, 7987), (7996, 7988), (7997, 7989), (7998, 7990), (7999, 7991), (8008, 8000),
  (8009, 8001), (8010, 8002), (8011, 8003), (8012, 8004), (8013, 8005), (8025, 8017), (8027, 8019), (8029, 8021),
  (8031, 8023), (8040, 8032), (8041, 8033), (8042, 8034), (8043, 8035), (8044, 8036), (8045, 8037), (8046, 8038),
  (8047, 8039), (8072, 8064), (8073, 8065), (8074, 8066), (8075, 8067), (8076, 8068), (8077, 8069), (8078, 8070),
  (8079, 8071), (8088, 8080), (8089, 8081), (8090, 8082), (8091, 8083), (8092, 8084), (8093, 8085), (8094, 8086),
  (8095, 8087), (8104, 8096), (8105, 8097), (8106, 8098), (8107, 8099), (8108, 8100), (8109, 8101), (8110, 8102),
  (8111, 8103), (8120, 8112), (8121, 8113), (8122, 8048), (8123, 8049), (8124, 8115), (8136, 8050), (8137, 8051),
  (8138, 8052), (8139, 8053), (8140, 8131), (8152, 8144), (8153, 8145), (8154, 8054), (8155, 8055), (8168, 8160),
  (8169, 8161), (8170, 8058), (8171, 8059), (8172, 8165), (8184, 8056), (8185, 8057), (8186, 8060), (8187, 8061),
  (8188, 8179), (8486, 969), (8490, 107), (8491, 229), (8498, 8526), (8544, 8560), (8545, 8561), (8546, 8562),
  (8547, 8563), (8548, 8564), (8549, 8565), (8550, 8566), (8551, 8567), (8552, 8568), (8553, 8569), (8554, 8570),
  (8555, 8571), (8556, 8572), (8557, 8573), (8558, 8574), (8559, 8575), (8579, 8580), (9398, 9424), (9399, 9425),
  (9400, 9426), (9401, 9427), (9402, 9428), (9403, 9429), (9404, 9430), (9405, 9431), (9406, 9432), (9407, 9433),
  (9408, 9434), (9409, 9435), (9410, 9436), (9411, 9437), (9412, 9438), (9413, 9439), (9414, 9440), (9415, 9441),
  (9416, 9442), (9417, 9443), (9418, 9444), (9419, 9445), (9420, 9446), (9421, 9447), (9422, 9448), (9423, 9449),
  (11264, 11312), (11265, 11313), (11266, 11314), (11267, 11315), (11268, 11316), (11269, 11317), (11270, 11318), (11271, 11319),
  (11272, 11320), (11273, 11321), (11274, 11322), (11275, 11323), (11276, 11324), (11277, 11325), (11278, 11326), (11279, 11327),
  (11280, 11328), (11281, 11329), (11282, 11330), (11283, 11331), (11284, 11332), (11285, 11333), (11286, 11334), (11287, 11335),
  (11288, 11336), (11289, 11337), (11290, 11338), (11291, 11339), (11292, 11340), (11293, 11341), (11294, 11342), (11295, 11343),
  (11296, 11344), (11297, 11345), (11298, 11346), (11299, 11347), (11300, 11348), (11301, 11349), (11302, 11350), (11303, 11351),
  (11304, 11352), (11305, 11353), (11306, 11354), (11307, 11355), (11308, 11356), (11309, 11357), (11310, 11358), (11311, 11359),
  (11360, 11361), (11362, 619), (11363, 7549), (11364, 637), (11367, 11368), (11369, 11370), (11371, 11372), (11373, 593),
  (11374, 625), (11375, 592), (11376, 594), (11378, 11379), (11381, 11382), (11390, 575), (11391, 576), (11392, 11393),
  (11394, 11395), (11396, 11397), (11398, 11399), (11400, 11401), (11402, 11403), (11404, 11405), (11406, 11407), (11408, 11409),
  (11410, 11411), (11412, 11413), (11414, 11415), (11416, 11417), (11418, 11419), (11420, 11421), (11422, 11423), (11424, 11425),
  (11426, 11427), (11428, 11429), (11430, 11431), (11432, 11433), (11434, 11435), (11436, 11437), (11438, 11439), (11440, 11441),
  (11442, 11443), (11444, 11445), (11446, 11447), (11448, 11449), (11450, 11451), (11452, 11453), (11454, 11455), (11456, 11457),
  (11458, 11459), (11460, 11461), (11462, 11463), (11464, 11465), (11466, 11467), (11468, 11469), (11470, 11471), (11472, 11473),
  (11474, 11475), (11476, 11477), (11478, 11479), (11480, 11481), (11482, 11483), (11484, 11485), (11486, 11487), (11488, 11489),
  (11490, 11491), (11499, 11500), (11501, 11502), (11506, 11507), (42560, 42561), (42562, 42563), (42564, 42565), (42566, 42567),
  (42568, 42569), (42570, 42571), (42572, 42573), (42574, 42575), (42576, 42577), (42578, 42579), (42580, 42581), (42582, 42583),
  (42584, 42585), (42586, 42587), (42588, 42589), (42590, 42591), (42592, 42593), (42594, 42595), (42596, 42597), (42598, 42599),
  (42600, 42601), (42602, 42603), (42604, 42605), (42624, 42625), (42626, 42627), (42628, 42629), (42630, 42631), (42632, 42633),
  (42634, 42635), (42636, 42637), (42638, 42639), (42640, 42641), (42642, 42643), (42644, 42645), (42646, 42647), (42648, 42649),
  (42650, 42651), (42786, 42787), (42788, 42789), (42790, 42791), (42792, 42793), (42794, 42795), (42796, 42797), (42798, 42799),
  (42802, 42803), (42804, 42805), (42806, 42807), (42808, 42809), (42810, 42811), (42812, 42813), (42814, 42815), (42816, 42817),
  (42818, 42819), (42820, 42821), (42822, 42823), (42824, 42825), (42826, 42827), (42828, 42829), (42830, 42831), (42832, 42833),
  (42834, 42835), (42836, 42837), (42838, 42839), (42840, 42841), (42842, 42843), (42844, 42845), (42846, 42847), (42848, 42849),
  (42850, 42851), (42852, 42853), (42854, 42855), (42856, 42857), (42858, 42859), (42860, 42861), (42862, 42863), (42873, 42874),
  (42875, 42876), (42877, 7545), (42878, 42879), (42880, 42881), (42882, 42883), (42884, 42885), (42886, 42887), (42891, 42892),
  (42893, 613), (42896, 42897), (42898, 42899), (42902, 42903), (42904, 42905), (42906, 42907), (42908, 42909), (42910, 42911),
  (42912, 42913), (42914, 42915), (42916, 42917), (42918, 42919), (42920, 42921), (42922, 614), (42923, 604), (42924, 609),
  (42925, 620), (42926, 618), (42928, 670), (42929, 647), (42930, 669), (42931, 43859), (42932, 42933), (42934, 42935),
  (42936, 42937), (42938, 42939), (42940, 42941), (42942, 42943), (42944, 42945), (42946, 42947), (42948, 42900), (42949, 642),
  (42950, 7566), (42951, 42952), (42953, 42954), (42960, 42961), (42966, 42967), (42968, 42969), (42997, 42998), (65313, 65345),
  (65314, 65346), (65315, 65347), (65316, 65348), (65317, 65349), (65318, 65350), (65319, 65351), (65320, 65352), (65321, 65353),
  (65322, 65354), (65323, 65355), (65324, 65356), (65325, 65357), (65326, 65358), (65327, 65359), (65328, 65360), (65329, 65361),
  (65330, 65362), (65331, 65363), (65332, 65364), (65333, 65365), (65334, 65366), (65335, 65367), (65336, 65368), (65337, 65369),
  (65338, 65370), (66560, 66600), (66561, 66601), (66562, 66602), (66563, 66603), (66564, 66604), (66565, 66605), (66566, 66606),
  (66567, 66607), (66568, 66608), (66569, 66609), (66570, 66610), (66571, 66611), (66572, 66612), (66573, 66613), (66574, 66614),
  (66575, 66615), (66576, 66616), (66577, 66617), (66578, 66618), (66579, 66619), (66580, 66620), (66581, 66621), (66582, 66622),
  (66583, 66623), (66584, 66624), (66585, 66625), (66586, 66626), (66587, 66627), (66588, 66628), (66589, 66629), (66590, 66630),
  (66591, 66631), (66592, 66632), (66593, 66633), (66594, 66634), (66595, 66635), (66596, 66636), (66597, 66637), (66598, 66638),
  (66599, 66639), (66736, 66776), (66737, 66777), (66738, 66778), (66739, 66779), (66740, 66780), (66741, 66781), (66742, 66782),
  (66743, 66783), (66744, 66784), (66745, 66785), (66746, 66786), (66747, 66787), (66748, 66788), (66749, 66789), (66750, 66790),
  (66751, 66791), (66752, 66792), (66753, 66793), (66754, 66794), (66755, 66795), (66756, 66796), (66757, 66797), (66758, 66798),
  (66759, 66799), (66760, 66800), (66761, 66801), (66762, 66802), (66763, 66803), (66764, 66804), (66765, 66805), (66766, 66806),
  (66767, 66807), (66768, 66808), (66769, 66809), (66770, 66810), (66771, 66811), (66928, 66967), (66929, 66968), (66930, 66969),
  (66931, 66970), (66932, 66971), (66933, 66972), (66934, 66973), (66935, 66974), (66936, 66975), (66937, 66976), (66938, 66977),
  (66940, 66979), (66941, 66980), (66942, 66981), (66943, 66982), (66944, 66983), (66945, 66984), (66946, 66985), (66947, 66986),
  (66948, 66987), (66949, 66988), (66950, 66989), (66951, 66990), (66952, 66991), (66953, 66992), (66954, 66993), (66956, 66995),
  (66957, 66996), (66958, 66997), (66959, 66998), (66960, 66999), (66961, 67000), (66962, 67001), (66964, 67003), (66965, 67004),
  (68736, 68800), (68737, 68801), (68738, 68802), (68739, 68803), (68740, 68804), (68741, 68805), (68742, 68806), (68743, 68807),
  (68744, 68808), (68745, 68809), (68746, 68810), (68747, 68811), (68748, 68812), (68749, 68813), (68750, 68814), (68751, 68815),
  (68752, 68816), (68753, 68817), (68754, 68818), (68755, 68819), (68756, 68820), (68757, 68821), (68758, 68822), (68759, 68823),
  (68760, 68824), (68761, 68825), (68762, 68826), (68763, 68827), (68764, 68828), (68765, 68829), (68766, 68830), (68767, 68831),
  (68768, 68832), (68769, 68833), (68770, 68834), (68771, 68835), (68772, 68836), (68773, 68837), (68774, 68838), (68775, 68839),
  (68776, 68840), (68777, 68841), (68778, 68842), (68779, 68843), (68780, 68844), (68781, 68845), (68782, 68846), (68783, 68847),
  (68784, 68848), (68785, 68849), (68786, 68850), (71840, 71872), (71841, 71873), (71842, 71874), (71843, 71875), (71844, 71876),
  (71845, 71877), (71846, 71878), (71847, 71879), (71848, 71880), (71849, 71881), (71850, 71882), (71851, 71883), (71852, 71884),
  (71853, 71885), (71854, 71886), (71855, 71887), (71856, 71888), (71857, 71889), (71858, 71890), (71859, 71891), (71860, 71892),
  (71861, 71893), (71862, 71894), (71863, 71895), (71864, 71896), (71865, 71897), (71866, 71898), (71867, 71899), (71868, 71900),
  (71869, 71901), (71870, 71902), (71871, 71903), (93760, 93792), (93761, 93793), (93762, 93794), (93763, 93795), (93764, 93796),
  (93765, 93797), (93766, 93798), (93767, 93799), (93768, 93800), (93769, 93801), (93770, 93802), (93771, 93803), (93772, 93804),
  (93773, 93805), (93774, 93806), (93775, 93807), (93776, 93808), (93777, 93809), (93778, 93810), (93779, 93811), (93780, 93812),
  (93781, 93813), (93782, 93814), (93783, 93815), (93784, 93816), (93785, 93817), (93786, 93818), (93787, 93819), (93788, 93820),
  (93789, 93821), (93790, 93822), (93791, 93823), (125184, 125218), (125185, 125219), (125186, 125220), (125187, 125221), (125188, 125222),
  (125189, 125223), (125190, 125224), (125191, 125225), (125192, 125226), (125193, 125227), (125194, 125228), (125195, 125229), (125196, 125230),
  (125197, 125231), (125198, 125232), (125199, 125233), (125200, 125234), (125201, 125235), (125202, 125236), (125203, 125237), (125204, 125238),
  (125205, 125239), (125206, 125240), (125207, 125241), (125208, 125242), (125209, 125243), (125210, 125244), (125211, 125245), (125212, 125246),
  (125213, 125247), (125214, 125248), (125215, 125249), (125216, 125250), (125217, 125251)]

/-- Python-3 regex `\w`. -/
def isWordChar (c : Nat) : Bool := inRanges wordRanges c

/-- Character class `[\w']` of the first regex alternative. -/
def wordClassChar (c : Nat) : Bool := isWordChar c || c == 39

/-- Union of the four explicit single-character block alternatives of the regex:
CJK ideographs, Hiragana block, Katakana block, Hangul syllables block. -/
def cjkSingle (c : Nat) : Bool :=
  (0x4E00 ≤ c && c ≤ 0x9FFF) || (0x3040 ≤ c && c ≤ 0x309F) ||
  (0x30A0 ≤ c && c ≤ 0x30FF) || (0xAC00 ≤ c && c ≤ 0xD7AF)

/-- Unicode Cased property, for the final-sigma context test. -/
def isCased (c : Nat) : Bool := inRanges casedRanges c

/-- Unicode Case_Ignorable property, for the final-sigma context test. -/
def isCaseIgnorable (c : Nat) : Bool := inRanges caseIgnorableRanges c

/-- The context-free lowercase image of one code point under `str.lower`. -/
def lowerChar (c : Nat) : List Nat :=
  if c < 192 then (if 65 ≤ c ∧ c ≤ 90 then [c + 32] else [c])
  else if c = 304 then [105, 775]
  else
    match lowerMap.find? (fun p => p.1 == c) with
    | some p => [p.2]
    | none => [c]

/-- Whether the first non-Case_Ignorable code point of a sequence is Cased:
the scan CPython's `str.lower` performs on each side of a capital sigma. -/
def scanCased : List Nat → Bool
  | [] => false
  | c :: rest => if isCaseIgnorable c then scanCased rest else isCased c

/-- One step of `str.lower` over a code-point sequence, with `pre` holding the
already-processed points in reverse: each point is lowered by `lowerChar`,
except that U+03A3 maps to U+03C2 (final sigma) when preceded by a Cased point
and not followed by one, skipping Case_Ignorable points on both sides. -/
def lowerAux (pre : List Nat) : List Nat → List Nat
  | [] => []
  | c :: rest =>
    (if c = 931 then (if scanCased pre && !scanCased rest then [962] else [963])
     else lowerChar c) ++ lowerAux (c :: pre) rest

/-- Python `str.lower`. -/
def pyLower (s : List Nat) : List Nat := lowerAux [] s

/-- The raw `re.findall` pass of the tokenizer (lines 94-101), before
lowercasing: maximal `[\w']+` runs become single tokens; a character in one
of the four block alternatives that is not a word character becomes a
one-character token; all other characters are discarded.  The word-run case is
realised structurally: a word character is merged with the word run that
starts the tokenization of the rest. -/
def tokenizeRaw : List Nat → List (List Nat)
  | [] => []
  | c :: rest =>
    let ts := tokenizeRaw rest
    if wordClassChar c then
      match rest with
      | [] => [[c]]
      | r :: _ =>
        if wordClassChar r then
          match ts with
          | t :: ts2 => (c :: t) :: ts2
          | [] => [[c]]
        else [c] :: ts
    else if cjkSingle c then [c] :: ts
    else ts

/-- The tokenizer of `compress` (lines 94-101): `re.findall` with the pattern
above, then `token.lower()` on each token. -/
def tokenize (s : List Nat) : List (List Nat) := (tokenizeRaw s).map pyLower

/-! ## UTF-8 (`str.encode('utf-8')`, `bytes.decode('utf-8', ...)`) -/

/-- UTF-8 encoding of a single code point. -/
def utf8EncodeChar (c : Nat) : List Nat :=
  if c < 128 then [c]
  else if c < 2048 then [192 + c / 64, 128 + c % 64]
  else if c < 65536 then [224 + c / 4096, 128 + c / 64 % 64, 128 + c % 64]
  else if c < 1114112 then
    [240 + c / 262144, 128 + c / 4096 % 64, 128 + c / 64 % 64, 128 + c % 64]
  else []

/-- Python `str.encode('utf-8')`. -/
def utf8Encode (s : List Nat) : List Nat := s.flatMap utf8EncodeChar

/-- Python `bytes.decode('utf-8', errors='ignore')` (line 156): decodes valid
sequences and silently drops invalid bytes.  (On malformed input this model
drops the bytes it has examined rather than re-synchronizing on the offending
byte the way CPython does; the codec only ever feeds this function output of
`str.encode('utf-8')`, on which the two behaviours coincide.) -/
def utf8DecodeIgnore : List Nat → List Nat
  | [] => []
  | b :: rest =>
    if b < 128 then b :: utf8DecodeIgnore rest
    else if b < 194 then utf8DecodeIgnore rest
    else if b < 224 then
      match rest with
      | [] => []
      | b1 :: r =>
        if 128 ≤ b1 && b1 < 192 then
          ((b - 192) * 64 + (b1 - 128)) :: utf8DecodeIgnore r
        else utf8DecodeIgnore r
    else if b < 240 then
      match rest with
      | [] => []
      | b1 :: r1 =>
        if (128 ≤ b1 && b1 < 192) && (b != 224 || 160 ≤ b1) && (b != 237 || b1 < 160) then
          match r1 with
          | [] => []
          | b2 :: r2 =>
            if 128 ≤ b2 && b2 < 192 then
              ((b - 224) * 4096 + (b1 - 128) * 64 + (b2 - 128)) :: utf8DecodeIgnore r2
            else utf8DecodeIgnore r2
        else utf8DecodeIgnore r1
    else if b < 245 then
      match rest with
      | [] => []
      | b1 :: r1 =>
        if (128 ≤ b1 && b1 < 192) && (b != 240 || 144 ≤ b1) && (b != 244 || b1 < 144) then
          match r1 with
          | [] => []
          | b2 :: r2 =>
            if 128 ≤ b2 && b2 < 192 then
              match r2 with
              | [] => []
              | b3 :: r3 =>
                if 128 ≤ b3 && b3 < 192 then
                  ((b - 240) * 262144 + (b1 - 128) * 4096 + (b2 - 128) * 64 + (b3 - 128)) ::
                    utf8DecodeIgnore r3
                else utf8DecodeIgnore r3
            else utf8DecodeIgnore r2
        else utf8DecodeIgnore r1
    else utf8DecodeIgnore rest

/-- Python strict `bytes.decode('utf-8')` (line 148): like the ignoring decoder
but any invalid byte raises `UnicodeDecodeError` (here `none`). -/
def utf8DecodeStrict : List Nat → Option (List Nat)
  | [] => some []
  | b :: rest =>
    if b < 128 then (utf8DecodeStrict rest).map (b :: ·)
    else if b < 194 then none
    else if b < 224 then
      match rest with
      | [] => none
      | b1 :: r =>
        if 128 ≤ b1 && b1 < 192 then
          (utf8DecodeStrict r).map (((b - 192) * 64 + (b1 - 128)) :: ·)
        else none
    else if b < 240 then
      match rest with
      | [] => none
      | b1 :: r1 =>
        if (128 ≤ b1 && b1 < 192) && (b != 224 || 160 ≤ b1) && (b != 237 || b1 < 160) then
          match r1 with
          | [] => none
          | b2 :: r2 =>
            if 128 ≤ b2 && b2 < 192 then
              (utf8DecodeStrict r2).map (((b - 224) * 4096 + (b1 - 128) * 64 + (b2 - 128)) :: ·)
            else none
        else none
    else if b < 245 then
      match rest with
      | [] => none
      | b1 :: r1 =>
        if (128 ≤ b1 && b1 < 192) && (b != 240 || 144 ≤ b1) && (b != 244 || b1 < 144) then
          match r1 with
          | [] => none
          | b2 :: r2 =>
            if 128 ≤ b2 && b2 < 192 then
              match r2 with
              | [] => none
              | b3 :: r3 =>
                if 128 ≤ b3 && b3 < 192 then
                  (utf8DecodeStrict r3).map
                    (((b - 240) * 262144 + (b1 - 128) * 4096 + (b2 - 128) * 64 + (b3 - 128)) :: ·)
                else none
            else none
        else none
    else none

/-! ## Joining and splitting (Python `str.join` / `str.split`) -/

/-- Python `sepChar.join(parts)` for a one-character separator. -/
def joinSep (sep : Nat) : List (List Nat) → List Nat
  | [] => []
  | [t] => t
  | t :: ts => t ++ sep :: joinSep sep ts

/-- Python `s.split(sepChar)` for a one-character separator (`''.split(c) = ['']`). -/
def splitSep (sep : Nat) : List Nat → List (List Nat)
  | [] => [[]]
  | c :: rest =>
    if c = sep then [] :: splitSep sep rest
    else
      match splitSep sep rest with
      | t :: ts => (c :: t) :: ts
      | [] => [[c]]

/-! ## Integer serialization -/

/-- `n.to_bytes(4, 'big')` (line 122), defined for `n < 2^32`. -/
def be32 (n : Nat) : List Nat :=
  [n / 16777216 % 256, n / 65536 % 256, n / 256 % 256, n % 256]

/-- `int.from_bytes(bs, 'big')` (line 144). -/
def be32val (bs : List Nat) : Nat := bs.foldl (fun acc b => acc * 256 + b) 0

/-- The two bytes contributed by one entry of the `np.uint16` array in
`ids.tobytes()` (line 121): numpy serializes in the machine's native byte
order, which is little-endian on the platforms this program runs on. -/
def enc16 (i : Nat) : List Nat := [i % 256, i / 256 % 256]

/-- `np.frombuffer(packed, dtype=np.uint16)` (line 163): native little-endian
16-bit reads; a trailing odd byte cannot occur because the caller is gated on
an even length (frombuffer raises otherwise). -/
def leWords : List Nat → List Nat
  | a :: b :: r => (a + 256 * b) :: leWords r
  | _ => []

/-- Index of the first `0` in a byte list, if any. -/
def findIdxZ : List Nat → Option Nat
  | [] => none
  | b :: r => if b = 0 then some 0 else (findIdxZ r).map (· + 1)

/-- Python `data.find(b'\x00', start)` (line 152), as an `Option` instead of `-1`. -/
def findZero (data : List Nat) (start : Nat) : Option Nat :=
  (findIdxZ (data.drop start)).map (start + ·)

/-- Decimal digit characters of a natural number, as code points (Python
`str(n)`, used by the f-string on line 178).  Fuel-based so that it reduces
in the kernel; `n + 1` units of fuel always suffice. -/
def natDigitsAux : Nat → Nat → List Nat → List Nat
  | 0, _, acc => acc
  | fuel + 1, n, acc =>
    if n < 10 then (48 + n) :: acc
    else natDigitsAux fuel (n / 10) ((48 + n % 10) :: acc)

/-- Python `str(n)` for a natural number. -/
def natDigits (n : Nat) : List Nat := natDigitsAux (n + 1) n []

/-! ## The dictionary store (SQLite table `words(id, word, lang)`,
primary key `(id, lang)`, lines 48-58) -/

/-- One row of the `words` table. -/
structure Entry where
  id : Nat
  word : List Nat
  lang : Nat
deriving DecidableEq

/-- The table contents, in rowid (insertion) order. -/
abbrev DB := List Entry

/-- The table's `PRIMARY KEY (id, lang)` invariant: no two rows share a key.
SQLite enforces this; it is a hypothesis for theorems over arbitrary stores. -/
def keysUnique : DB → Bool
  | [] => true
  | e :: es => es.all (fun r => !(r.id == e.id && r.lang == e.lang)) && keysUnique es

/-- `SELECT id FROM words WHERE word = ? AND lang = ?` with `fetchone()`
(lines 110-113): the first matching row in scan order. -/
def wordLookup : DB → List Nat → Nat → Option Nat
  | [], _, _ => none
  | e :: es, w, l => if e.word = w ∧ e.lang = l then some e.id else wordLookup es w l

/-- `SELECT id, word FROM words WHERE id = ? AND lang = ?` with `fetchone()`
(lines 169-172), returning the word. -/
def idLookup : DB → Nat → Nat → Option (List Nat)
  | [], _, _ => none
  | e :: es, i, l => if e.id = i ∧ e.lang = l then some e.word else idLookup es i l

/-- The encoder's per-token lookup as filtered into the `lookup` dict
(lines 107-114): a row is kept only if it exists and `row[0] < 65536`. -/
def lookupFiltered (db : DB) (w : List Nat) (l : Nat) : Option Nat :=
  match wordLookup db w l with
  | some i => if i < 65536 then some i else none
  | none => none

/-- `lookup.get(token, Language.UNSPECIFIED)` (line 117). -/
def tokenId (db : DB) (l : Nat) (t : List Nat) : Nat :=
  (lookupFiltered db t l).getD 65535

/-- SQLite `INSERT OR REPLACE INTO words VALUES (?, ?, ?)` (line 74): any row
with the same primary key `(id, lang)` is deleted and the new row is inserted
with a fresh largest rowid, i.e. appended in scan order. -/
def insertOrReplace (db : DB) (e : Entry) : DB :=
  db.filter (fun r => !(r.id == e.id && r.lang == e.lang)) ++ [e]

/-- The word normalization `parts[1].lower()` applied by `load` (line 75). -/
def normEntry (e : Entry) : Entry := ⟨e.id, pyLower e.word, e.lang⟩

/-- `load` (lines 63-79) at the level of already-parsed `(id, word, language)`
rows: each row is lowercased and upserted in order via `executemany`. -/
def loadEntries (db : DB) (rows : List Entry) : DB :=
  rows.foldl (fun d r => insertOrReplace d (normEntry r)) db

/-! ## Encoder (`compress`, lines 82-128) -/

/-- The per-position id array of `compress` (line 117). -/
def idsOf (db : DB) (l : Nat) (tokens : List (List Nat)) : List Nat :=
  tokens.map (tokenId db l)

/-- `compress(text, lang)` (lines 82-128).  `none` models the `OverflowError`
raised by `lang.to_bytes(1, 'big')` when the enum value does not fit one byte
(`Language.UNSPECIFIED`), and by `len(packed).to_bytes(4, 'big')` when the id
stream is at least 2^32 bytes long. -/
def compressM (db : DB) (lang : Language) (text : List Nat) : Option (List Nat) :=
  if 256 ≤ lang.toNat then none
  else
    let tokens := tokenize text
    if tokens.isEmpty then some (lang.toNat :: [0, 0, 0, 0])
    else
      let ids := idsOf db lang.toNat tokens
      let packed := ids.flatMap enc16
      if 4294967296 ≤ packed.length then none
      else
        let missing := (tokens.zip ids).filterMap (fun p => if p.2 = 65535 then some p.1 else none)
        let head := lang.toNat :: (be32 packed.length ++ packed)
        if missing.isEmpty then some head
        else some (head ++ 0 :: utf8Encode (joinSep 124 missing))

/-! ## Decoder (`decompress`, lines 131-180) -/

/-- The placeholder `'[MISSING]'` (line 177). -/
def missingLit : List Nat := pyStr "[MISSING]"

/-- The placeholder f-string `'[MISSING:<id>]'` (line 178). -/
def missingId (i : Nat) : List Nat := pyStr "[MISSING:" ++ natDigits i ++ pyStr "]"

/-- The reconstruction walk (lines 176-180): per id, either consume the next
literal token (sentinel) or look the id up, falling back to placeholders.  The
source builds a dict from the distinct non-sentinel ids first; since that dict
is exactly the restriction of the row lookup to those ids, consulting
`idLookup` per position is the same function. -/
def walk (db : DB) (l : Nat) : List Nat → List (List Nat) → List (List Nat)
  | [], _ => []
  | i :: is, lits =>
    if i = 65535 then
      match lits with
      | lit :: ls => lit :: walk db l is ls
      | [] => missingLit :: walk db l is []
    else
      (match idLookup db i l with
       | some w => w
       | none => missingId i) :: walk db l is lits

/-- `decompress(data)` (lines 131-180).  `none` models the exceptions:
`UnicodeDecodeError` from the strict decode on line 148, `ValueError` from
`np.frombuffer` on an odd buffer (line 163), and `ValueError` from
`Language(data[0])` (line 162) when the byte is not a defined enum value. -/
def decompressM (db : DB) (data : List Nat) : Option (List Nat) :=
  if data.length < 5 then some []
  else
    let len := be32val ((data.drop 1).take 4)
    if len = 0 then
      if 5 < data.length then
        match utf8DecodeStrict (data.drop 5) with
        | some s => some (joinSep 32 (splitSep 124 s))
        | none => none
      else some []
    else
      let packed := (data.drop 5).take len
      if packed.length % 2 ≠ 0 then none
      else
        let unspec :=
          match findZero data (5 + len) with
          | some s => if s + 1 < data.length then splitSep 124 (utf8DecodeIgnore (data.drop (s + 1))) else []
          | none => []
        match langOfByte (data.headD 0) with
        | none => none
        | some lang => some (joinSep 32 (walk db lang.toNat (leWords packed) unspec))

/-! ## Query counting (claim C9) and frame well-formedness (claim C4) -/

/-- Number of distinct elements of a list (`len(np.unique(l))`). -/
def numDistinct {α : Type} [DecidableEq α] (l : List α) : Nat :=
  (l.foldl (fun acc t => if t ∈ acc then acc else t :: acc) []).length

/-- Number of SQL round trips (`cursor().execute` calls) performed by
`compress` (lines 107-114): one per distinct token when the tokenization is
nonempty (the `for token in np.unique(tokens)` comprehension runs one
single-row query per unique token), none otherwise. -/
def compressQueries (text : List Nat) : Nat :=
  let tokens := tokenize text
  if tokens.isEmpty then 0 else numDistinct tokens

/-- Number of SQL round trips performed by `decompress` (lines 166-173): one
per distinct non-sentinel id, and none on the paths that return or raise
before reaching the lookup comprehension. -/
def decompressQueries (data : List Nat) : Nat :=
  if data.length < 5 then 0
  else
    let len := be32val ((data.drop 1).take 4)
    if len = 0 then 0
    else
      let packed := (data.drop 5).take len
      if packed.length % 2 ≠ 0 then 0
      else
        match langOfByte (data.headD 0) with
        | none => 0
        | some _ => numDistinct ((leWords packed).filter (fun i => i ≠ 65535))

/-- Well-formed frame, following the words of claim C4 and spec §6: at least
the 5 header bytes; byte values in range; an even `idLength` consistent with
the data; and, on the `idLength = 0` path where the code decodes strictly, a
valid-UTF-8 literal section. -/
def specWellFormedFrame (data : List Nat) : Bool :=
  5 ≤ data.length &&
  data.all (· < 256) &&
  (let len := be32val ((data.drop 1).take 4)
   len % 2 == 0 && 5 + len ≤ data.length &&
   (len != 0 || data.length ≤ 5 || (utf8DecodeStrict (data.drop 5)).isSome))

/-! ## Basic lemmas: integer serialization -/

theorem be32_length (n : Nat) : (be32 n).length = 4 := rfl

theorem be32val_be32 (n : Nat) (h : n < 4294967296) : be32val (be32 n) = n := by
  simp only [be32, be32val, List.foldl]
  omega

theorem enc16_length (i : Nat) : (enc16 i).length = 2 := rfl

theorem length_flatMap_enc16 (ids : List Nat) :
    (ids.flatMap enc16).length = 2 * ids.length := by
  induction ids with
  | nil => rfl
  | cons i is ih => simp [List.flatMap_cons, enc16, ih]; omega

theorem leWords_flatMap_enc16 (ids : List Nat) (h : ∀ i ∈ ids, i < 65536) :
    leWords (ids.flatMap enc16) = ids := by
  induction ids with
  | nil => rfl
  | cons i is ih =>
    have hi : i < 65536 := h i (List.mem_cons_self i is)
    have : i % 256 + 256 * (i / 256 % 256) = i := by omega
    simp only [List.flatMap_cons, enc16, List.cons_append, List.nil_append, leWords, this]
    exact congrArg (i :: ·) (ih fun j hj => h j (List.mem_cons_of_mem i hj))

/-! ## Basic lemmas: joining and splitting -/

theorem splitSep_no_sep (sep : Nat) (t : List Nat) (h : sep ∉ t) :
    splitSep sep t = [t] := by
  induction t with
  | nil => rfl
  | cons c r ih =>
    have hc : c ≠ sep := fun hc => h (hc ▸ List.mem_cons_self c r)
    have hr : sep ∉ r := fun hr => h (List.mem_cons_of_mem c hr)
    simp only [splitSep, if_neg hc, ih hr]

theorem splitSep_append_sep (sep : Nat) (t r : List Nat) (h : sep ∉ t) :
    splitSep sep (t ++ sep :: r) = t :: splitSep sep r := by
  induction t with
  | nil => simp [splitSep]
  | cons c t2 ih =>
    have hc : c ≠ sep := fun hc => h (hc ▸ List.mem_cons_self c t2)
    have ht2 : sep ∉ t2 := fun hm => h (List.mem_cons_of_mem c hm)
    simp only [List.cons_append, splitSep, if_neg hc, List.append_eq]
    rw [ih ht2]

theorem splitSep_joinSep (sep : Nat) (ts : List (List Nat)) (hne : ts ≠ [])
    (h : ∀ t ∈ ts, sep ∉ t) : splitSep sep (joinSep sep ts) = ts := by
  induction ts with
  | nil => exact absurd rfl hne
  | cons t ts2 ih =>
    cases ts2 with
    | nil => exact splitSep_no_sep sep t (h t (List.mem_cons_self t []))
    | cons u us =>
      have hj : joinSep sep (t :: u :: us) = t ++ sep :: joinSep sep (u :: us) := rfl
      rw [hj, splitSep_append_sep sep t _ (h t (List.mem_cons_self t _)),
        ih (by simp) (fun v hv => h v (List.mem_cons_of_mem t hv))]

theorem joinSep_ne_nil (sep : Nat) (t : List Nat) (ts : List (List Nat)) (h : t ≠ []) :
    joinSep sep (t :: ts) ≠ [] := by
  cases ts with
  | nil => exact h
  | cons u us =>
    have : joinSep sep (t :: u :: us) = t ++ sep :: joinSep sep (u :: us) := rfl
    rw [this]
    cases t with
    | nil => exact absurd rfl h
    | cons c r => simp

theorem mem_joinSep (sep c : Nat) (ts : List (List Nat)) (h : c ∈ joinSep sep ts) :
    c = sep ∨ ∃ t ∈ ts, c ∈ t := by
  induction ts with
  | nil => cases h
  | cons t ts2 ih =>
    cases ts2 with
    | nil =>
      exact Or.inr ⟨t, List.mem_cons_self t [], h⟩
    | cons u us =>
      have hj : joinSep sep (t :: u :: us) = t ++ sep :: joinSep sep (u :: us) := rfl
      rw [hj] at h
      rcases List.mem_append.mp h with h1 | h2
      · exact Or.inr ⟨t, List.mem_cons_self t _, h1⟩
      · rcases List.mem_cons.mp h2 with h3 | h4
        · exact Or.inl h3
        · rcases ih h4 with h5 | ⟨v, hv, hc⟩
          · exact Or.inl h5
          · exact Or.inr ⟨v, List.mem_cons_of_mem t hv, hc⟩

/-! ## Basic lemmas: UTF-8 -/

theorem utf8DecodeIgnore_two (b b1 : Nat) (r : List Nat) (ha : 194 ≤ b) (hb : b < 224)
    (hc : 128 ≤ b1) (hd : b1 < 192) :
    utf8DecodeIgnore (b :: b1 :: r) = ((b - 192) * 64 + (b1 - 128)) :: utf8DecodeIgnore r := by
  conv_lhs => unfold utf8DecodeIgnore
  rw [if_neg (by omega), if_neg (by omega), if_pos (by omega)]
  simp only []
  rw [if_pos (by simp; omega)]

theorem utf8DecodeIgnore_three (b b1 b2 : Nat) (r : List Nat) (ha : 224 ≤ b) (hb : b < 240)
    (hc : 128 ≤ b1) (hd : b1 < 192) (he : b = 224 → 160 ≤ b1) (hf : b = 237 → b1 < 160)
    (hg : 128 ≤ b2) (hh : b2 < 192) :
    utf8DecodeIgnore (b :: b1 :: b2 :: r) =
      ((b - 224) * 4096 + (b1 - 128) * 64 + (b2 - 128)) :: utf8DecodeIgnore r := by
  conv_lhs => unfold utf8DecodeIgnore
  rw [if_neg (by omega), if_neg (by omega), if_neg (by omega), if_pos (by omega)]
  simp only []
  rw [if_pos (by simp; omega)]
  rw [if_pos (by simp; omega)]

theorem utf8DecodeIgnore_four (b b1 b2 b3 : Nat) (r : List Nat) (ha : 240 ≤ b) (hb : b < 245)
    (hc : 128 ≤ b1) (hd : b1 < 192) (he : b = 240 → 144 ≤ b1) (hf : b = 244 → b1 < 144)
    (hg : 128 ≤ b2) (hh : b2 < 192) (hi2 : 128 ≤ b3) (hj : b3 < 192) :
    utf8DecodeIgnore (b :: b1 :: b2 :: b3 :: r) =
      ((b - 240) * 262144 + (b1 - 128) * 4096 + (b2 - 128) * 64 + (b3 - 128)) ::
        utf8DecodeIgnore r := by
  conv_lhs => unfold utf8DecodeIgnore
  rw [if_neg (by omega), if_neg (by omega), if_neg (by omega), if_neg (by omega),
    if_pos (by omega)]
  simp only []
  rw [if_pos (by simp; omega)]
  rw [if_pos (by simp; omega)]
  rw [if_pos (by simp; omega)]

theorem utf8DecodeIgnore_encodeChar (c : Nat) (hc : c < 55296 ∨ (57344 ≤ c ∧ c < 1114112))
    (r : List Nat) :
    utf8DecodeIgnore (utf8EncodeChar c ++ r) = c :: utf8DecodeIgnore r := by
  rcases Nat.lt_or_ge c 128 with h1 | h1
  · rw [show utf8EncodeChar c = [c] by unfold utf8EncodeChar; rw [if_pos h1]]
    rw [List.cons_append, List.nil_append]
    conv_lhs => unfold utf8DecodeIgnore
    rw [if_pos h1]
  rcases Nat.lt_or_ge c 2048 with h2 | h2
  · rw [show utf8EncodeChar c = [192 + c / 64, 128 + c % 64] by
      unfold utf8EncodeChar; rw [if_neg (by omega), if_pos (by omega)]]
    rw [List.cons_append, List.cons_append, List.nil_append,
      utf8DecodeIgnore_two _ _ _ (by omega) (by omega) (by omega) (by omega)]
    congr 1
    omega
  rcases Nat.lt_or_ge c 65536 with h3 | h3
  · rw [show utf8EncodeChar c = [224 + c / 4096, 128 + c / 64 % 64, 128 + c % 64] by
      unfold utf8EncodeChar; rw [if_neg (by omega), if_neg (by omega), if_pos (by omega)]]
    rw [List.cons_append, List.cons_append, List.cons_append, List.nil_append,
      utf8DecodeIgnore_three _ _ _ _ (by omega) (by omega) (by omega) (by omega)
        (by intro h; omega) (by intro h; omega) (by omega) (by omega)]
    congr 1
    omega
  · rw [show utf8EncodeChar c
        = [240 + c / 262144, 128 + c / 4096 % 64, 128 + c / 64 % 64, 128 + c % 64] by
      unfold utf8EncodeChar
      rw [if_neg (by omega), if_neg (by omega), if_neg (by omega), if_pos (by omega)]]
    rw [List.cons_append, List.cons_append, List.cons_append, List.cons_append,
      List.nil_append,
      utf8DecodeIgnore_four _ _ _ _ _ (by omega) (by omega) (by omega) (by omega)
        (by intro h; omega) (by intro h; omega) (by omega) (by omega) (by omega) (by omega)]
    congr 1
    omega

theorem utf8DecodeIgnore_encode (l : List Nat)
    (h : ∀ c ∈ l, c < 55296 ∨ (57344 ≤ c ∧ c < 1114112)) :
    utf8DecodeIgnore (utf8Encode l) = l := by
  induction l with
  | nil => rfl
  | cons c cs ih =>
    have : utf8Encode (c :: cs) = utf8EncodeChar c ++ utf8Encode cs := by
      simp [utf8Encode, List.flatMap_cons]
    rw [this, utf8DecodeIgnore_encodeChar c (h c (List.mem_cons_self c cs)),
      ih fun d hd => h d (List.mem_cons_of_mem c hd)]

theorem utf8EncodeChar_ne_nil (c : Nat) (h : c < 1114112) : utf8EncodeChar c ≠ [] := by
  unfold utf8EncodeChar
  repeat' split
  all_goals simp_all

theorem utf8Encode_ne_nil (l : List Nat) (hne : l ≠ [])
    (h : ∀ c ∈ l, c < 55296 ∨ (57344 ≤ c ∧ c < 1114112)) :
    utf8Encode l ≠ [] := by
  cases l with
  | nil => exact absurd rfl hne
  | cons c cs =>
    have e : utf8Encode (c :: cs) = utf8EncodeChar c ++ utf8Encode cs := by
      simp [utf8Encode, List.flatMap_cons]
    rw [e]
    intro hcontr
    exact utf8EncodeChar_ne_nil c (by
        have := h c (List.mem_cons_self c cs); omega)
      (List.append_eq_nil.mp hcontr).1

/-! ## Tokenizer lemmas -/

/-- Characters that can occur in a token: a Unicode scalar value (no surrogate,
below 0x110000), and none of the pipe, space and NUL separators the codec's
framing relies on. -/
def tokenChar (c : Nat) : Prop :=
  (c < 55296 ∨ (57344 ≤ c ∧ c < 1114112)) ∧ c ≠ 124 ∧ c ≠ 32 ∧ c ≠ 0

/-- Boolean twin of `tokenChar`, for the decidable table checks. -/
def safeChar (c : Nat) : Bool :=
  (c < 55296 || (57344 ≤ c && c < 1114112)) && c != 124 && c != 32 && c != 0

theorem tokenChar_of_safe (c : Nat) (h : safeChar c = true) : tokenChar c := by
  simp only [safeChar, Bool.and_eq_true, Bool.or_eq_true, decide_eq_true_eq,
    bne_iff_ne, ne_eq] at h
  unfold tokenChar
  omega

/-- A range is safe when every code point it contains is a `safeChar`. -/
def rangeSafe (p : Nat × Nat) : Bool :=
  0 < p.1 && p.2 < 1114112 && (p.2 < 55296 || 57344 ≤ p.1) &&
  !(p.1 ≤ 124 && 124 ≤ p.2) && !(p.1 ≤ 32 && 32 ≤ p.2)

theorem wordRanges_safe : wordRanges.all rangeSafe = true := by decide

theorem inRanges_safe (rs : List (Nat × Nat)) (hall : rs.all rangeSafe = true) (c : Nat)
    (h : inRanges rs c = true) : safeChar c = true := by
  unfold inRanges at h
  obtain ⟨p, hp, hcp⟩ := List.any_eq_true.mp h
  have hs := List.all_eq_true.mp hall p hp
  simp only [rangeSafe, Bool.and_eq_true, Bool.or_eq_true, Bool.not_eq_eq_eq_not,
    Bool.not_true, Bool.and_eq_false_iff, decide_eq_true_eq, decide_eq_false_iff_not,
    Nat.not_le] at hs hcp
  simp only [safeChar, Bool.and_eq_true, Bool.or_eq_true, decide_eq_true_eq,
    bne_iff_ne, ne_eq]
  omega

theorem rawChar_safe (c : Nat) (h : (wordClassChar c || cjkSingle c) = true) :
    safeChar c = true := by
  have h0 : wordClassChar c = true ∨ cjkSingle c = true := by simpa using h
  rcases h0 with hw | hcjk
  · have h1 : isWordChar c = true ∨ (c == 39) = true := by
      simpa [wordClassChar] using hw
    rcases h1 with hw2 | h39
    · exact inRanges_safe wordRanges wordRanges_safe c hw2
    · have : c = 39 := by simpa using h39
      subst this
      decide
  · simp only [cjkSingle, Bool.or_eq_true, Bool.and_eq_true, decide_eq_true_eq] at hcjk
    simp only [safeChar, Bool.and_eq_true, Bool.or_eq_true, decide_eq_true_eq,
      bne_iff_ne, ne_eq]
    omega

theorem lowerMap_safe : lowerMap.all (fun p => safeChar p.2) = true := by decide

theorem lowerChar_safe (c : Nat) (hc : safeChar c = true) :
    lowerChar c ≠ [] ∧ ∀ d ∈ lowerChar c, safeChar d = true := by
  unfold lowerChar
  split
  · split
    · refine ⟨by simp, fun d hd => ?_⟩
      rcases List.mem_singleton.mp hd with rfl
      simp only [safeChar, Bool.and_eq_true, Bool.or_eq_true, decide_eq_true_eq,
        bne_iff_ne, ne_eq]
      omega
    · refine ⟨by simp, fun d hd => ?_⟩
      rcases List.mem_singleton.mp hd with rfl
      exact hc
  · split
    · refine ⟨by simp, fun d hd => ?_⟩
      rcases List.mem_cons.mp hd with rfl | hd2
      · decide
      · rcases List.mem_singleton.mp hd2 with rfl
        decide
    · cases hfind : lowerMap.find? (fun p => p.1 == c) with
      | none =>
        refine ⟨by simp, fun d hd => ?_⟩
        rcases List.mem_singleton.mp hd with rfl
        exact hc
      | some p =>
        have hmem := List.mem_of_find?_eq_some hfind
        have hs := List.all_eq_true.mp lowerMap_safe p hmem
        refine ⟨by simp, fun d hd => ?_⟩
        rcases List.mem_singleton.mp hd with rfl
        exact hs

theorem lowerAux_safe (t : List Nat) : ∀ pre : List Nat,
    (∀ c ∈ t, safeChar c = true) →
    (t ≠ [] → lowerAux pre t ≠ []) ∧ ∀ d ∈ lowerAux pre t, safeChar d = true := by
  induction t with
  | nil =>
    intro pre _
    exact ⟨fun hne => absurd rfl hne, fun d hd => absurd hd (by simp [lowerAux])⟩
  | cons c rest ih =>
    intro pre h
    have hc := h c (List.mem_cons_self c rest)
    have hr := ih (c :: pre) (fun d hd => h d (List.mem_cons_of_mem c hd))
    have hstep : lowerAux pre (c :: rest) =
        (if c = 931 then (if scanCased pre && !scanCased rest then [962] else [963])
         else lowerChar c) ++ lowerAux (c :: pre) rest := rfl
    rw [hstep]
    by_cases hsig : c = 931
    · rw [if_pos hsig]
      constructor
      · intro _
        split <;> simp
      · intro d hd
        rcases List.mem_append.mp hd with hd1 | hd2
        · split at hd1 <;> (rcases List.mem_singleton.mp hd1 with rfl; decide)
        · exact hr.2 d hd2
    · rw [if_neg hsig]
      have hlc := lowerChar_safe c hc
      constructor
      · intro _
        intro hcontr
        exact hlc.1 (List.append_eq_nil.mp hcontr).1
      · intro d hd
        rcases List.mem_append.mp hd with hd1 | hd2
        · exact hlc.2 d hd1
        · exact hr.2 d hd2

theorem tokenizeRaw_sound (s : List Nat) :
    ∀ t ∈ tokenizeRaw s, t ≠ [] ∧ ∀ c ∈ t, (wordClassChar c || cjkSingle c) = true := by
  induction s with
  | nil =>
    intro t ht
    exact absurd ht (by simp [tokenizeRaw])
  | cons c rest ih =>
    intro t ht
    cases rest with
    | nil =>
      rw [tokenizeRaw.eq_2] at ht
      split at ht
      · rcases List.mem_singleton.mp ht with rfl
        exact ⟨by simp, fun d hd => by
          rcases List.mem_singleton.mp hd with rfl
          simp only [Bool.or_eq_true]
          exact Or.inl (by assumption)⟩
      split at ht
      · simp only [tokenizeRaw.eq_1] at ht
        rcases List.mem_singleton.mp ht with rfl
        exact ⟨by simp, fun d hd => by
          rcases List.mem_singleton.mp hd with rfl
          simp only [Bool.or_eq_true]
          exact Or.inr (by assumption)⟩
      · simp [tokenizeRaw.eq_1] at ht
    | cons r rest2 =>
      rw [tokenizeRaw.eq_3] at ht
      split at ht
      · split at ht
        · rename_i hw hr
          cases htk : tokenizeRaw (r :: rest2) with
          | nil =>
            rw [htk] at ht
            rcases List.mem_singleton.mp ht with rfl
            exact ⟨by simp, fun d hd => by
              rcases List.mem_singleton.mp hd with rfl
              simp [hw]⟩
          | cons t0 ts2 =>
            rw [htk] at ht
            rcases List.mem_cons.mp ht with rfl | hmem
            · refine ⟨by simp, fun d hd => ?_⟩
              rcases List.mem_cons.mp hd with rfl | hd0
              · simp [hw]
              · exact (ih t0 (by rw [htk]; exact List.mem_cons_self t0 ts2)).2 d hd0
            · exact ih t (by rw [htk]; exact List.mem_cons_of_mem t0 hmem)
        · rename_i hw hr
          rcases List.mem_cons.mp ht with rfl | hmem
          · exact ⟨by simp, fun d hd => by
              rcases List.mem_singleton.mp hd with rfl
              simp [hw]⟩
          · exact ih t hmem
      · split at ht
        · rename_i hw hcjk
          rcases List.mem_cons.mp ht with rfl | hmem
          · exact ⟨by simp, fun d hd => by
              rcases List.mem_singleton.mp hd with rfl
              simp [hcjk]⟩
          · exact ih t hmem
        · exact ih t ht

theorem tokenize_sound (s : List Nat) :
    ∀ t ∈ tokenize s, t ≠ [] ∧ ∀ c ∈ t, tokenChar c := by
  intro t ht
  unfold tokenize at ht
  rcases List.mem_map.mp ht with ⟨t0, ht0, rfl⟩
  have hraw := tokenizeRaw_sound s t0 ht0
  have hsafe : ∀ c ∈ t0, safeChar c = true := fun c hc => rawChar_safe c (hraw.2 c hc)
  have hl := lowerAux_safe t0 [] hsafe
  exact ⟨hl.1 hraw.1, fun c hc => tokenChar_of_safe c (hl.2 c hc)⟩

/-! ## Dictionary store lemmas -/

theorem wordLookup_mem (db : DB) (t : List Nat) (l i : Nat) (h : wordLookup db t l = some i) :
    ∃ e ∈ db, e.id = i ∧ e.word = t ∧ e.lang = l := by
  induction db with
  | nil => cases h
  | cons e es ih =>
    rw [wordLookup] at h
    split at h
    · rename_i hcond
      injection h with hid
      exact ⟨e, List.mem_cons_self e es, hid, hcond.1, hcond.2⟩
    · rcases ih h with ⟨e2, he2, h1, h2, h3⟩
      exact ⟨e2, List.mem_cons_of_mem e he2, h1, h2, h3⟩

theorem idLookup_of_wordLookup (db : DB) (t : List Nat) (l i : Nat)
    (hu : keysUnique db = true) (h : wordLookup db t l = some i) :
    idLookup db i l = some t := by
  induction db with
  | nil => cases h
  | cons e es ih =>
    rw [keysUnique, Bool.and_eq_true] at hu
    rw [wordLookup] at h
    rw [idLookup]
    split at h
    · rename_i hcond
      injection h with hid
      rw [if_pos ⟨hid, hcond.2⟩]
      exact congrArg some hcond.1
    · rcases wordLookup_mem es t l i h with ⟨e2, he2, hid2, hw2, hl2⟩
      have hne : ¬(e.id = i ∧ e.lang = l) := by
        rintro ⟨hei, hel⟩
        have hall := List.all_eq_true.mp hu.1 e2 he2
        simp only [Bool.not_eq_eq_eq_not, Bool.not_true, Bool.and_eq_false_iff,
          beq_eq_false_iff_ne, ne_eq] at hall
        rcases hall with hbad | hbad
        · exact hbad (hid2.trans hei.symm)
        · exact hbad (hl2.trans hel.symm)
      rw [if_neg hne]
      exact ih hu.2 h

theorem lookupFiltered_some (db : DB) (w : List Nat) (l i : Nat)
    (h : lookupFiltered db w l = some i) :
    wordLookup db w l = some i ∧ i < 65536 := by
  unfold lookupFiltered at h
  split at h
  · rename_i j hj
    split at h
    · injection h with h2
      subst h2
      exact ⟨hj, by assumption⟩
    · cases h
  · cases h

theorem tokenId_lt (db : DB) (l : Nat) (t : List Nat) : tokenId db l t < 65536 := by
  unfold tokenId
  cases hf : lookupFiltered db t l with
  | none => simp
  | some i =>
    simp only [Option.getD_some]
    exact (lookupFiltered_some db t l i hf).2

theorem tokenId_found (db : DB) (l : Nat) (t : List Nat) (h : tokenId db l t ≠ 65535) :
    wordLookup db t l = some (tokenId db l t) := by
  unfold tokenId at *
  cases hf : lookupFiltered db t l with
  | none => rw [hf] at h; simp at h
  | some i =>
    exact (lookupFiltered_some db t l i hf).1

/-! ## Language lemmas -/

theorem toNat_lt_256 (lang : Language) (h : lang ≠ Language.UNSPECIFIED) :
    lang.toNat < 256 := by
  cases lang <;> (try exact absurd rfl h) <;> decide

theorem langOfByte_toNat (lang : Language) (h : lang ≠ Language.UNSPECIFIED) :
    langOfByte lang.toNat = some lang := by
  cases lang <;> (try exact absurd rfl h) <;> rfl

/-! ## Reconstruction-walk lemmas -/

theorem missing_eq_filter (db : DB) (l : Nat) (T : List (List Nat)) :
    ((T.zip (T.map (tokenId db l))).filterMap
        fun p => if p.2 = 65535 then some p.1 else none) =
      T.filter (fun t => tokenId db l t == 65535) := by
  induction T with
  | nil => rfl
  | cons t ts ih =>
    simp only [List.map_cons, List.zip_cons_cons, List.filterMap_cons, List.filter_cons]
    by_cases h : tokenId db l t = 65535 <;> simp [h, ih]

theorem walk_map (db : DB) (l : Nat) (T : List (List Nat))
    (h : ∀ t ∈ T, tokenId db l t ≠ 65535 → idLookup db (tokenId db l t) l = some t) :
    walk db l (T.map (tokenId db l)) (T.filter (fun t => tokenId db l t == 65535)) = T := by
  induction T with
  | nil => rfl
  | cons t ts ih =>
    have ihts := ih fun u hu => h u (List.mem_cons_of_mem t hu)
    simp only [List.map_cons, List.filter_cons]
    by_cases ht : tokenId db l t = 65535
    · rw [if_pos (by simp [ht])]
      conv_lhs => rw [walk.eq_def]
      try simp only []
      rw [if_pos ht]
      try simp only []
      exact congrArg (t :: ·) ihts
    · rw [if_neg (by simp [ht])]
      conv_lhs => rw [walk.eq_def]
      try simp only []
      rw [if_neg ht, h t (List.mem_cons_self t ts) ht]
      try simp only []
      exact congrArg (t :: ·) ihts

/-! ## Structural behaviour of `decompressM` on encoder-shaped frames -/

theorem decompressM_parts_nolits (db : DB) (lang : Language) (P : List Nat)
    (hl : lang ≠ Language.UNSPECIFIED) (hm0 : P.length ≠ 0)
    (heven : P.length % 2 = 0) (hm32 : P.length < 4294967296) :
    decompressM db ((lang.toNat :: be32 P.length) ++ P) =
      some (joinSep 32 (walk db lang.toNat (leWords P) [])) := by
  have hpfx : (lang.toNat :: be32 P.length).length = 5 := by simp [be32]
  have hlen : be32val ((((lang.toNat :: be32 P.length) ++ P).drop 1).take 4) = P.length := by
    have h1 : ((lang.toNat :: be32 P.length) ++ P).drop 1 = be32 P.length ++ P := by
      simp [List.cons_append]
    rw [h1, List.take_left' (be32_length P.length), be32val_be32 _ hm32]
  have hdrop5 : ((lang.toNat :: be32 P.length) ++ P).drop 5 = P :=
    List.drop_left' hpfx
  have hlength : ((lang.toNat :: be32 P.length) ++ P).length = 5 + P.length := by
    simp [be32]; omega
  have hdropPast : ((lang.toNat :: be32 P.length) ++ P).drop (5 + P.length) = [] :=
    List.drop_eq_nil_of_le (by omega)
  have hfz : findZero ((lang.toNat :: be32 P.length) ++ P) (5 + P.length) = none := by
    unfold findZero
    rw [hdropPast]
    rfl
  have hhead : ((lang.toNat :: be32 P.length) ++ P).headD 0 = lang.toNat := by
    simp [List.cons_append]
  simp only [decompressM]
  rw [if_neg (by omega), hlen, if_neg hm0, hdrop5, List.take_length,
    if_neg (by omega), hhead, langOfByte_toNat lang hl, hfz]

theorem decompressM_parts_lits (db : DB) (lang : Language) (P E : List Nat)
    (hl : lang ≠ Language.UNSPECIFIED) (hm0 : P.length ≠ 0)
    (heven : P.length % 2 = 0) (hm32 : P.length < 4294967296) (hE : E ≠ []) :
    decompressM db ((lang.toNat :: be32 P.length) ++ (P ++ 0 :: E)) =
      some (joinSep 32 (walk db lang.toNat (leWords P)
        (splitSep 124 (utf8DecodeIgnore E)))) := by
  have hpfx : (lang.toNat :: be32 P.length).length = 5 := by simp [be32]
  have hEpos : 0 < E.length := List.length_pos.mpr hE
  have hlen : be32val (((((lang.toNat :: be32 P.length) ++ (P ++ 0 :: E))).drop 1).take 4)
      = P.length := by
    have h1 : ((lang.toNat :: be32 P.length) ++ (P ++ 0 :: E)).drop 1
        = be32 P.length ++ (P ++ 0 :: E) := by
      simp [List.cons_append]
    rw [h1, List.take_left' (be32_length P.length), be32val_be32 _ hm32]
  have hdrop5 : ((lang.toNat :: be32 P.length) ++ (P ++ 0 :: E)).drop 5 = P ++ 0 :: E :=
    List.drop_left' hpfx
  have htake : (P ++ 0 :: E).take P.length = P := List.take_left' rfl
  have hlength : ((lang.toNat :: be32 P.length) ++ (P ++ 0 :: E)).length
      = 5 + P.length + 1 + E.length := by
    simp [be32]; omega
  have hassoc : (lang.toNat :: be32 P.length) ++ (P ++ 0 :: E)
      = (((lang.toNat :: be32 P.length) ++ P) ++ [0]) ++ E := by
    simp [List.append_assoc]
  have hdropPast : ((lang.toNat :: be32 P.length) ++ (P ++ 0 :: E)).drop (5 + P.length)
      = 0 :: E := by
    have h2 : (lang.toNat :: be32 P.length) ++ (P ++ 0 :: E)
        = ((lang.toNat :: be32 P.length) ++ P) ++ (0 :: E) := by
      simp [List.append_assoc]
    rw [h2]
    exact List.drop_left' (by simp [be32]; omega)
  have hfz : findZero ((lang.toNat :: be32 P.length) ++ (P ++ 0 :: E)) (5 + P.length)
      = some (5 + P.length) := by
    unfold findZero
    rw [hdropPast]
    simp [findIdxZ]
  have hdropS : ((lang.toNat :: be32 P.length) ++ (P ++ 0 :: E)).drop (5 + P.length + 1)
      = E := by
    rw [hassoc]
    exact List.drop_left' (by simp [be32]; omega)
  have hhead : ((lang.toNat :: be32 P.length) ++ (P ++ 0 :: E)).headD 0 = lang.toNat := by
    simp [List.cons_append]
  simp only [decompressM]
  rw [if_neg (by omega), hlen, if_neg hm0, hdrop5, htake, if_neg (by omega), hfz]
  simp only []
  rw [if_pos (by omega), hdropS, hhead, langOfByte_toNat lang hl]

/-! ## The compress/decompress round trip -/

theorem compress_decompress (db : DB) (lang : Language) (text : List Nat)
    (hdb : keysUnique db = true) (hl : lang ≠ Language.UNSPECIFIED)
    (hsz : 2 * (tokenize text).length < 4294967296) :
    ∃ frame, compressM db lang text = some frame ∧
      decompressM db frame = some (joinSep 32 (tokenize text)) := by
  have hlb := toNat_lt_256 lang hl
  by_cases hT : tokenize text = []
  · refine ⟨lang.toNat :: [0, 0, 0, 0], ?_, ?_⟩
    · simp only [compressM]
      rw [if_neg (by omega), hT]
      rfl
    · rw [hT]
      simp [decompressM, be32val, joinSep]
  · have hsound := tokenize_sound text
    have hwalkhyp : ∀ t ∈ tokenize text, tokenId db lang.toNat t ≠ 65535 →
        idLookup db (tokenId db lang.toNat t) lang.toNat = some t :=
      fun t _ hne => idLookup_of_wordLookup db t lang.toNat _ hdb (tokenId_found db lang.toNat t hne)
    have hids_lt : ∀ i ∈ (tokenize text).map (tokenId db lang.toNat), i < 65536 := by
      intro i hi
      rcases List.mem_map.mp hi with ⟨t, _, rfl⟩
      exact tokenId_lt db lang.toNat t
    have hplen : (((tokenize text).map (tokenId db lang.toNat)).flatMap enc16).length
        = 2 * (tokenize text).length := by
      rw [length_flatMap_enc16, List.length_map]
    have hEmpF : (tokenize text).isEmpty = false := by
      cases h : tokenize text with
      | nil => exact absurd h hT
      | cons a l => rfl
    have hwalkeq := walk_map db lang.toNat (tokenize text) hwalkhyp
    have hlewords : leWords (((tokenize text).map (tokenId db lang.toNat)).flatMap enc16)
        = (tokenize text).map (tokenId db lang.toNat) :=
      leWords_flatMap_enc16 _ hids_lt
    by_cases hmiss : (tokenize text).filter (fun t => tokenId db lang.toNat t == 65535) = []
    · have hcomp : compressM db lang text = some (lang.toNat ::
          (be32 (((tokenize text).map (tokenId db lang.toNat)).flatMap enc16).length ++
            ((tokenize text).map (tokenId db lang.toNat)).flatMap enc16)) := by
        simp only [compressM, idsOf]
        rw [if_neg (by omega), hEmpF]
        simp only [Bool.false_eq_true, if_false]
        rw [hplen, if_neg (by omega), missing_eq_filter, hmiss]
        rfl
      have hdecomp := decompressM_parts_nolits db lang
        (((tokenize text).map (tokenId db lang.toNat)).flatMap enc16) hl
        (by rw [hplen]; have := List.length_pos.mpr hT; omega)
        (by rw [hplen]; omega) (by rw [hplen]; omega)
      rw [hlewords, ← hmiss, hwalkeq] at hdecomp
      exact ⟨_, hcomp, hdecomp⟩
    · have hmisssub : ∀ t ∈ (tokenize text).filter (fun t => tokenId db lang.toNat t == 65535),
          t ≠ [] ∧ ∀ c ∈ t, tokenChar c :=
        fun t ht => hsound t (List.mem_of_mem_filter ht)

      have hjoinchars : ∀ c ∈ joinSep 124
          ((tokenize text).filter (fun t => tokenId db lang.toNat t == 65535)),
          c < 55296 ∨ (57344 ≤ c ∧ c < 1114112) := by
        intro c hc
        rcases mem_joinSep 124 c _ hc with rfl | ⟨t, ht, hct⟩
        · exact Or.inl (by omega)
        · exact ((hmisssub t ht).2 c hct).1
      have hjoin_ne : joinSep 124
          ((tokenize text).filter (fun t => tokenId db lang.toNat t == 65535)) ≠ [] := by
        cases hm : (tokenize text).filter (fun t => tokenId db lang.toNat t == 65535) with
        | nil => exact absurd hm hmiss
        | cons m0 ms =>
          exact joinSep_ne_nil 124 m0 ms (hmisssub m0 (by rw [hm]; exact List.mem_cons_self m0 ms)).1
      have hE_ne : utf8Encode (joinSep 124
          ((tokenize text).filter (fun t => tokenId db lang.toNat t == 65535))) ≠ [] :=
        utf8Encode_ne_nil _ hjoin_ne hjoinchars
      have hcomp : compressM db lang text = some ((lang.toNat ::
          (be32 (((tokenize text).map (tokenId db lang.toNat)).flatMap enc16).length ++
            ((tokenize text).map (tokenId db lang.toNat)).flatMap enc16)) ++
          0 :: utf8Encode (joinSep 124
            ((tokenize text).filter (fun t => tokenId db lang.toNat t == 65535)))) := by
        simp only [compressM, idsOf]
        rw [if_neg (by omega), hEmpF]
        simp only [Bool.false_eq_true, if_false]
        rw [hplen, if_neg (by omega), missing_eq_filter]
        rw [if_neg (by
          intro hcontr
          exact hmiss (by
            cases h : (tokenize text).filter (fun t => tokenId db lang.toNat t == 65535) with
            | nil => rfl
            | cons a l => rw [h] at hcontr; cases hcontr))]
      have hdecomp := decompressM_parts_lits db lang
        (((tokenize text).map (tokenId db lang.toNat)).flatMap enc16)
        (utf8Encode (joinSep 124
          ((tokenize text).filter (fun t => tokenId db lang.toNat t == 65535)))) hl
        (by rw [hplen]; have := List.length_pos.mpr hT; omega)
        (by rw [hplen]; omega) (by rw [hplen]; omega) hE_ne
      rw [utf8DecodeIgnore_encode _ hjoinchars,
        splitSep_joinSep 124 _ hmiss (fun t ht c124 => ((hmisssub t ht).2 124 c124).2.1 rfl),
        hlewords, hwalkeq] at hdecomp
      exact ⟨_, hcomp, hdecomp⟩

/-! ## Idempotence of dictionary loading -/

/-- Whether a row's primary key `(id, lang)` occurs among some rows. -/
def keyIn (E : List Entry) (r : Entry) : Bool :=
  E.any (fun e => r.id == e.id && r.lang == e.lang)

/-- The rows that survive upserting `E` in order: each key's last occurrence,
in order of last occurrence. -/
def canonRows : List Entry → List Entry
  | [] => []
  | e :: E => if keyIn E e then canonRows E else e :: canonRows E

theorem canonRows_mem (E : List Entry) (r : Entry) (h : r ∈ canonRows E) :
    keyIn E r = true := by
  induction E with
  | nil => cases h
  | cons e E ih =>
    rw [canonRows] at h
    rw [keyIn, List.any_cons]
    split at h
    · rw [Bool.or_eq_true]
      exact Or.inr (ih h)
    · rcases List.mem_cons.mp h with rfl | h2
      · simp
      · rw [Bool.or_eq_true]
        exact Or.inr (ih h2)

theorem foldl_insertOrReplace (E : List Entry) : ∀ db : DB,
    E.foldl insertOrReplace db = db.filter (fun r => !keyIn E r) ++ canonRows E := by
  induction E with
  | nil =>
    intro db
    simp [keyIn, canonRows]
  | cons e E ih =>
    intro db
    rw [List.foldl_cons, ih]
    unfold insertOrReplace
    rw [List.filter_append, List.filter_filter]
    have h1 : (fun r => !keyIn E r && !(r.id == e.id && r.lang == e.lang))
        = fun r => !keyIn (e :: E) r := by
      funext r
      simp [keyIn, List.any_cons, Bool.and_comm]
    rw [h1, canonRows]
    cases hk : keyIn E e with
    | true =>
      rw [if_pos rfl]
      have h2 : List.filter (fun r => !keyIn E r) [e] = [] := by
        simp [List.filter, hk]
      rw [h2]
      simp
    | false =>
      rw [if_neg (by simp)]
      have h2 : List.filter (fun r => !keyIn E r) [e] = [e] := by
        simp [List.filter, hk]
      rw [h2]
      simp

theorem loadN_idem (E : List Entry) (db : DB) :
    E.foldl insertOrReplace (E.foldl insertOrReplace db) = E.foldl insertOrReplace db := by
  rw [foldl_insertOrReplace, foldl_insertOrReplace, List.filter_append, List.filter_filter]
  have h1 : (fun (r : Entry) => !keyIn E r && !keyIn E r) = fun r => !keyIn E r :=
    funext fun r => Bool.and_self _
  have h2 : (canonRows E).filter (fun r => !keyIn E r) = [] := by
    rw [List.filter_eq_nil_iff]
    intro a ha
    simp [canonRows_mem E a ha]
  rw [h1, h2, List.append_nil]

theorem loadEntries_idem (db : DB) (rows : List Entry) :
    loadEntries (loadEntries db rows) rows = loadEntries db rows := by
  unfold loadEntries
  rw [← List.foldl_map normEntry insertOrReplace, ← List.foldl_map normEntry insertOrReplace]
  exact loadN_idem (rows.map normEntry) db

/-! ## Totality of the decoder on well-formed frames -/

theorem decompressM_total (db : DB) (data : List Nat)
    (hwf : specWellFormedFrame data = true) (hb : data.headD 0 ≤ 16) :
    ∃ s, decompressM db data = some s := by
  simp only [specWellFormedFrame, Bool.and_eq_true, decide_eq_true_eq, Bool.or_eq_true,
    bne_iff_ne, ne_eq, beq_iff_eq] at hwf
  have h5 := hwf.1.1
  have heven := hwf.2.1.1
  have hconsist := hwf.2.1.2
  have hrest := hwf.2.2
  simp only [decompressM]
  rw [if_neg (by omega)]
  by_cases hlen0 : be32val ((data.drop 1).take 4) = 0
  · rw [if_pos hlen0]
    by_cases h5x : 5 < data.length
    · rw [if_pos h5x]
      rcases hrest with (h | h) | h
      · exact absurd hlen0 h
      · omega
      · obtain ⟨s, hs⟩ := Option.isSome_iff_exists.mp h
        rw [hs]
        exact ⟨_, rfl⟩
    · rw [if_neg h5x]
      exact ⟨[], rfl⟩
  · rw [if_neg hlen0]
    have hplen : ((data.drop 5).take (be32val ((data.drop 1).take 4))).length
        = be32val ((data.drop 1).take 4) := by
      rw [List.length_take, List.length_drop]
      omega
    rw [if_neg (by rw [hplen]; omega)]
    have hlang : ∃ lg, langOfByte (data.headD 0) = some lg := by
      have h16 : ∀ b, b < 17 → (langOfByte b).isSome = true := by decide
      exact Option.isSome_iff_exists.mp (h16 _ (by omega))
    obtain ⟨lg, hlg⟩ := hlang
    rw [hlg]
    exact ⟨_, rfl⟩

/-! ## Concrete stores used by the claim witnesses -/

/-- A store holding "hello"→10 and "world"→11 for EN (language code 2). -/
def dbHW : DB := [⟨10, pyStr "hello", 2⟩, ⟨11, pyStr "world", 2⟩]

/-- A store holding an oversize id 70000 for "big" and id 5 for "ok" (EN). -/
def dbBig : DB := [⟨70000, pyStr "big", 2⟩, ⟨5, pyStr "ok", 2⟩]

/-! ## The claims -/

/-- C1: for every input text whose tokens are all present in the dictionary for
language L (with ids < 65536), `decompress(compress(text, L))` equals the tokens
of `text`, lowercased, joined by single spaces.  (`tokenize` lowercases; the
length bound is the frame format's own u32 `idLength` field; `keysUnique` is the
store's `PRIMARY KEY (id, lang)` constraint.) -/
theorem claim1_roundtrip_full_dictionary (db : DB) (lang : Language) (text : List Nat)
    (hdb : keysUnique db = true) (hl : lang ≠ Language.UNSPECIFIED)
    (hsz : 2 * (tokenize text).length < 4294967296)
    (hfound : (tokenize text).all (fun t => (lookupFiltered db t lang.toNat).isSome) = true) :
    ∃ frame, compressM db lang text = some frame ∧
      decompressM db frame = some (joinSep 32 (tokenize text)) :=
  compress_decompress db lang text hdb hl hsz

theorem claim1_witness :
    joinSep 32 (tokenize (pyStr "hello world")) = pyStr "hello world" ∧
    ∃ frame, compressM dbHW Language.EN (pyStr "hello world") = some frame ∧
      decompressM dbHW frame = some (joinSep 32 (tokenize (pyStr "hello world"))) :=
  ⟨by decide, claim1_roundtrip_full_dictionary dbHW Language.EN (pyStr "hello world")
    (by decide) (by decide) (by decide) (by decide)⟩

/-- C2 (counterexample): with "hello"→10 and "world"→11 in the EN store,
`compress("hello world", EN)` does not produce the big-endian frame
`02 00 00 00 04 00 0A 00 0B` claimed by the spec — numpy's `tobytes` writes the
ids in native little-endian order — and `decompress` of that big-endian frame
does not return "hello world" (it reads ids 2560 and 2816 and emits
placeholders). -/
theorem claim2_counterexample :
    compressM dbHW Language.EN (pyStr "hello world") = some [2, 0, 0, 0, 4, 10, 0, 11, 0] ∧
    ([2, 0, 0, 0, 4, 10, 0, 11, 0] : List Nat) ≠ [2, 0, 0, 0, 4, 0, 10, 0, 11] ∧
    decompressM dbHW [2, 0, 0, 0, 4, 0, 10, 0, 11] ≠ some (pyStr "hello world") := by
  refine ⟨by decide, by decide, by decide⟩

/-- C2 (amended): `compress` serializes the id sequence as unsigned 16-bit
LITTLE-endian (numpy native order) values; with "hello"→10, "world"→11,
`compress("hello world", EN)` produces exactly `02 00 00 00 04 0A 00 0B 00`,
and `decompress` of that frame returns "hello world". -/
theorem claim2_little_endian_frame :
    compressM dbHW Language.EN (pyStr "hello world") = some [2, 0, 0, 0, 4, 10, 0, 11, 0] ∧
    decompressM dbHW [2, 0, 0, 0, 4, 10, 0, 11, 0] = some (pyStr "hello world") := by
  refine ⟨by decide, by decide⟩

/-- C3: the tokenizer does NOT emit one token per CJK character: because
Python 3's `\w` matches CJK letters, the run "你好" is captured whole by the
`[\w']+` alternative and yields the single two-character token "你好", not the
two one-character tokens the spec describes. -/
theorem claim3_cjk_run_one_token :
    tokenize (pyStr "你好") = [pyStr "你好"] ∧
    tokenize (pyStr "你好") ≠ [pyStr "你", pyStr "好"] := by
  refine ⟨by decide, by decide⟩

/-- C4 (counterexample): the frame `11 00 00 00 02 0A 00` is well-formed in the
claim's sense (language byte 17 is within 0-255, idLength 2 is even and
consistent), yet `decompress` raises `ValueError` at `Language(data[0])`
(modelled as `none`) instead of returning a string. -/
theorem claim4_counterexample :
    specWellFormedFrame [17, 0, 0, 0, 2, 10, 0] = true ∧
    decompressM [] [17, 0, 0, 0, 2, 10, 0] = none := by
  refine ⟨by decide, by decide⟩

/-- C4 (amended): `decompress` never raises on a well-formed frame whose
language byte is a DEFINED language code (0-16); dictionary lookup misses
degrade to placeholder text rather than errors.  (Language bytes 17-255 raise
`ValueError` in `Language(data[0])`.) -/
theorem claim4_decompress_total (db : DB) (data : List Nat)
    (hwf : specWellFormedFrame data = true) (hb : data.headD 0 ≤ 16) :
    ∃ s, decompressM db data = some s :=
  decompressM_total db data hwf hb

theorem claim4_witness :
    specWellFormedFrame [2, 0, 0, 0, 2, 255, 255] = true ∧
    ([2, 0, 0, 0, 2, 255, 255] : List Nat).headD 0 ≤ 16 ∧
    decompressM [] [2, 0, 0, 0, 2, 255, 255] = some (pyStr "[MISSING]") ∧
    (∃ s, decompressM [] [2, 0, 0, 0, 2, 255, 255] = some s) :=
  ⟨by decide, by decide, by decide,
   claim4_decompress_total [] [2, 0, 0, 0, 2, 255, 255] (by decide) (by decide)⟩

/-- C5: for every input whose tokenization is empty, `compress` returns exactly
the 5 bytes language-byte followed by four zero bytes, and `decompress` of that
output returns the empty string. -/
theorem claim5_empty_tokenization (db : DB) (lang : Language) (text : List Nat)
    (hl : lang ≠ Language.UNSPECIFIED) (htok : tokenize text = []) :
    compressM db lang text = some [lang.toNat, 0, 0, 0, 0] ∧
    ([lang.toNat, 0, 0, 0, 0] : List Nat).length = 5 ∧
    decompressM db [lang.toNat, 0, 0, 0, 0] = some [] := by
  have hlb := toNat_lt_256 lang hl
  refine ⟨?_, rfl, ?_⟩
  · simp only [compressM]
    rw [if_neg (by omega), htok]
    rfl
  · simp [decompressM, be32val]

theorem claim5_witness :
    compressM [] Language.EN (pyStr "") = some [2, 0, 0, 0, 0] ∧
    ([2, 0, 0, 0, 0] : List Nat).length = 5 ∧
    decompressM [] [2, 0, 0, 0, 0] = some [] :=
  claim5_empty_tokenization [] Language.EN (pyStr "") (by decide) (by decide)

/-- C6: an out-of-dictionary token reappears verbatim (lowercased) at its
original position in the decompressed output.  The witness covers the concrete
scenario: `compress("xyz123 world", EN)` with "world"→11 and "xyz123" absent
yields idStream values [0xFFFF, 0x000B] and literal section "xyz123", and
`decompress` returns "xyz123 world". -/
theorem claim6_literal_positions (db : DB) (lang : Language) (text : List Nat)
    (i : Nat) (t : List Nat)
    (hdb : keysUnique db = true) (hl : lang ≠ Language.UNSPECIFIED)
    (hsz : 2 * (tokenize text).length < 4294967296)
    (hi : (tokenize text)[i]? = some t)
    (habs : wordLookup db t lang.toNat = none) :
    ∃ frame out, compressM db lang text = some frame ∧ decompressM db frame = some out ∧
      (splitSep 32 out)[i]? = some t := by
  obtain ⟨frame, hc, hd⟩ := compress_decompress db lang text hdb hl hsz
  refine ⟨frame, _, hc, hd, ?_⟩
  have hTne : tokenize text ≠ [] := by
    intro h
    rw [h] at hi
    cases hi
  have hchars := tokenize_sound text
  rw [splitSep_joinSep 32 _ hTne (fun u hu h32 => ((hchars u hu).2 32 h32).2.2.1 rfl)]
  exact hi

theorem claim6_witness :
    compressM dbHW Language.EN (pyStr "xyz123 world")
      = some [2, 0, 0, 0, 4, 255, 255, 11, 0, 0, 120, 121, 122, 49, 50, 51] ∧
    leWords [255, 255, 11, 0] = [65535, 11] ∧
    utf8DecodeIgnore [120, 121, 122, 49, 50, 51] = pyStr "xyz123" ∧
    (∃ frame out, compressM dbHW Language.EN (pyStr "xyz123 world") = some frame ∧
      decompressM dbHW frame = some out ∧ (splitSep 32 out)[0]? = some (pyStr "xyz123")) :=
  ⟨by decide, by decide, by decide,
   claim6_literal_positions dbHW Language.EN (pyStr "xyz123 world") 0 (pyStr "xyz123")
     (by decide) (by decide) (by decide) (by decide) (by decide)⟩

/-- C7: the encoder's word-to-id lookup never returns an id ≥ 65536 even when
such a row exists, and a word whose fetched row has id ≥ 65536 is mapped to the
sentinel 0xFFFF by `compress` (and hence falls back to the literal path). -/
theorem claim7_lookup_filters_large_ids (db : DB) (l : Nat) (w : List Nat) :
    (∀ i, lookupFiltered db w l = some i → i < 65536) ∧
    (∀ j, wordLookup db w l = some j → 65536 ≤ j → tokenId db l w = 65535) := by
  constructor
  · intro i hi
    exact (lookupFiltered_some db w l i hi).2
  · intro j hj hge
    unfold tokenId lookupFiltered
    rw [hj]
    simp only []
    rw [if_neg (by omega)]
    rfl

theorem claim7_witness :
    wordLookup dbBig (pyStr "big") 2 = some 70000 ∧
    tokenId dbBig 2 (pyStr "big") = 65535 ∧
    (5 : Nat) < 65536 :=
  ⟨by decide,
   (claim7_lookup_filters_large_ids dbBig 2 (pyStr "big")).2 70000 (by decide) (by decide),
   (claim7_lookup_filters_large_ids dbBig 2 (pyStr "ok")).1 5 (by decide)⟩

/-- C8: dictionary load is idempotent: loading the same rows twice leaves the
store in the same state — literally, and hence as observed through word and id
lookups. -/
theorem claim8_load_idempotent (db : DB) (rows : List Entry) :
    loadEntries (loadEntries db rows) rows = loadEntries db rows ∧
    (∀ w l, wordLookup (loadEntries (loadEntries db rows) rows) w l
      = wordLookup (loadEntries db rows) w l) ∧
    (∀ i l, idLookup (loadEntries (loadEntries db rows) rows) i l
      = idLookup (loadEntries db rows) i l) := by
  have h := loadEntries_idem db rows
  exact ⟨h, fun w l => by rw [h], fun i l => by rw [h]⟩

/-- C9: the code does NOT issue a single batched query: it performs one
`execute` round trip per distinct token ("hello world" has two distinct tokens
and triggers two queries) and one per distinct non-sentinel id in `decompress`
(the frame for ids 10, 11 triggers two). -/
theorem claim9_query_counts :
    compressQueries (pyStr "hello world") = 2 ∧
    decompressQueries [2, 0, 0, 0, 4, 10, 0, 11, 0] = 2 := by
  refine ⟨by decide, by decide⟩

/-- C10: no token produced by the tokenizer contains the '|' character (124) or
NUL (0), so the '|'-joined literal section splits back into exactly the
original token list. -/
theorem claim10_token_purity (text t : List Nat) (ht : t ∈ tokenize text) (c : Nat)
    (hc : c ∈ t) (hne : tokenize text ≠ []) :
    c ≠ 124 ∧ c ≠ 0 ∧
    splitSep 124 (joinSep 124 (tokenize text)) = tokenize text := by
  have hsound := tokenize_sound text
  refine ⟨((hsound t ht).2 c hc).2.1, ((hsound t ht).2 c hc).2.2.2, ?_⟩
  exact splitSep_joinSep 124 _ hne (fun u hu h124 => ((hsound u hu).2 124 h124).2.1 rfl)

theorem claim10_witness :
    (104 : Nat) ≠ 124 ∧ (104 : Nat) ≠ 0 ∧
    splitSep 124 (joinSep 124 (tokenize (pyStr "hello world"))) = tokenize (pyStr "hello world") :=
  claim10_token_purity (pyStr "hello world") (pyStr "hello") (by decide) 104
    (by decide) (by decide)

end Multilang
